import Mathlib

/-!
# Hiawatha worker core (`src/workers.c`): shallow embedding and verified properties

The embedding follows `src/workers.c` function by function, for the build in
which `ENABLE_SSL`, `ENABLE_TOOLKIT`, `ENABLE_XSLT`, `ENABLE_RPROXY`,
`ENABLE_MONITOR` and `ENABLE_THREAD_POOL` are defined and `ENABLE_DEBUG`,
`ENABLE_TOMAHAWK` and `CYGWIN` are not.

Conventions.

* C strings are `List Char` (the characters before the terminating NUL).
* `int` is `Int`, lengths are `Nat`; no arithmetic in the modelled code can
  overflow.
* `session->config` and `session->binding` are never written by the request
  code, so they are passed next to the session instead of living in it.
* Functions defined in other compilation units are collected in `Env`.
  Functions that only inspect their arguments are pure fields of `Env`;
  functions that receive the session pointer and belong to the request
  machinery (parsers, content handlers, senders) are arbitrary state
  transformers of the session, reached through `Env.ext`, and may depend on
  the whole history of external calls; loggers, monitor counters, the ban list
  and the client registry do not write the session and are recorded as events.
* Every effectful external call appends one `Event` to the trace of the
  state `St`, in call order. What an external function does inside (a content
  handler that itself sends or logs) is not in the trace: only the call is.
* The thread pool functions run between `pthread_mutex_lock` and
  `pthread_mutex_unlock` of `thread_pool_mutex`; they are modelled as atomic
  steps on the module globals `t_workers`, with the linked lists as `List`s,
  head first, and the results of `malloc` and the pthread calls given in `t_os`.
-/

namespace Hiawatha

/-- C string: the characters before the terminating NUL. -/
abbrev CStr := List Char

/-- Request methods of `t_req_method`. -/
inductive t_req_method where
  | GET | HEAD | POST | PUT | DELETE | TRACE | unknown | unsupported
  deriving DecidableEq

/-- CGI classification of the target, `t_cgi_type`. -/
inductive t_cgi_type where
  | no_cgi | binary | script | fastcgi
  deriving DecidableEq

/-- Verdict of an access list, `t_access`. -/
inductive t_access where
  | deny | allow | pwd | unspecified
  deriving DecidableEq

/-- Result of `is_directory`, `t_fsbool`. -/
inductive t_fsbool where
  | error | no | yes | no_access | not_found
  deriving DecidableEq

/-- Why a 301 is sent, `t_cause_of_301`. -/
inductive t_cause_of_301 where
  | missing_slash | require_ssl | location
  deriving DecidableEq

/-- Transport and policy faults behind a result of -1, `t_error_cause`. -/
inductive t_error_cause where
  | ec_NONE | ec_MAX_REQUESTSIZE | ec_TIMEOUT | ec_CLIENT_DISCONNECTED
  | ec_SOCKET_READ_ERROR | ec_SOCKET_WRITE_ERROR | ec_FORCE_QUIT
  | ec_SQL_INJECTION | ec_INVALID_URL
  deriving DecidableEq

/-- Result codes of `use_toolkit` that `serve_client` tests for; every other
code (`UT_RETURN`, `UT_EXIT`, `UT_REWRITE`) is `UT_OTHER`. -/
inductive t_ut_result where
  | UT_ERROR | UT_REDIRECT | UT_DENY_ACCESS | UT_OTHER
  deriving DecidableEq

/-- Family-tagged address, `t_ip_addr`. -/
structure t_ip_addr where
  family : Int
  value : Nat
  deriving DecidableEq

/-- Handle of an access list or IP list (contents live in other modules). -/
abbrev t_accesslist := Nat
/-- Handle of a list of strings, `t_charlist`. -/
abbrev t_charlist := Nat
/-- Handle of a compiled regular expression. -/
abbrev t_pattern := Nat
/-- Handle of a reverse-proxy rule, `t_rproxy`. -/
abbrev t_rproxy := Nat
/-- Handle of a FastCGI server record. -/
abbrev t_fcgi_server := Nat
/-- Handle of the parsed header list of a request. -/
abbrev t_http_header := Nat

/-- One node of `config->cgi_handler`. -/
structure t_cgi_handler where
  handler : CStr
  extension : t_charlist
  deriving DecidableEq

/-- One node of `host->error_handlers`. -/
structure t_error_handler where
  code : Int
  handler : CStr
  parameters : Option CStr
  deriving DecidableEq

/-- The fields of `t_toolkit_options` that `serve_client` reads. -/
structure t_toolkit_options where
  ban : Int
  fastcgi_server : Option CStr
  new_url : Option CStr
  expire : Int
  deriving DecidableEq

/-- Directory-level settings, `t_directory` (only the field used here). -/
structure t_directory where
  run_on_download : Option CStr
  deriving DecidableEq

/-- Virtual-host record, `t_host`: the fields `workers.c` reads or writes. -/
structure t_host where
  website_root : CStr
  website_root_len : Nat
  access_time : Int
  access_list : t_accesslist
  error_handlers : List t_error_handler
  ca_certificate : Option CStr
  require_ssl : Bool
  deny_body : List t_pattern
  rproxy : List t_rproxy
  toolkit_rules : List CStr
  secure_url : Bool
  prevent_xss : Bool
  prevent_csrf : Bool
  prevent_sqli : Bool
  webdav_app : Bool
  enable_path_info : Bool
  allow_dot_files : Bool
  start_file : CStr
  show_index : Option CStr
  run_on_alter : Option CStr
  monitor_host : Bool
  monitor_requests : Bool
  fast_cgi : t_charlist
  execute_cgi : Bool
  deriving DecidableEq

/-- Listener descriptor, `t_binding`. -/
structure t_binding where
  use_ssl : Bool
  enable_trace : Bool
  enable_alter : Bool
  time_for_1st_request : Int
  time_for_request : Int
  deriving DecidableEq

/-- Process configuration, `t_config`: the fields `workers.c` reads. -/
structure t_config where
  first_host : List t_host
  fcgi_server : List t_fcgi_server
  cgi_extension : t_charlist
  cgi_handler : List t_cgi_handler
  hide_proxy : t_accesslist
  banlist_mask : t_accesslist
  url_toolkit : Nat
  kick_on_ban : Bool
  monitor_enabled : Bool
  wait_for_cgi : Bool
  reconnect_delay : Int
  ban_on_denied_body : Int
  ban_on_timeout : Int
  ban_on_max_request_size : Int
  ban_on_sqli : Int
  ban_on_invalid_url : Int
  ban_on_garbage : Int
  ban_on_flooding : Int
  deriving DecidableEq

/-- Per-connection, per-request state, `t_session`: the fields `workers.c`
reads or writes. `body` is the memory from `session->body` to the end of the
request buffer when the pointer is not NULL. -/
structure t_session where
  request_method : t_req_method
  header_length : Nat
  content_length : Nat
  time : Int
  ip_address : t_ip_addr
  http_headers : t_http_header
  hostname : Option CStr
  host : t_host
  uri : CStr
  uri_len : Nat
  vars : Option CStr
  request_uri : CStr
  body : Option (List Char)
  cause_of_301 : t_cause_of_301
  location : Option CStr
  toolkit_fastcgi : Option CStr
  tempdata : List CStr
  expires : Int
  file_on_disk : Option CStr
  uri_is_dir : Bool
  extension : CStr
  cgi_type : t_cgi_type
  cgi_handler : Option CStr
  fcgi_server : Option t_fcgi_server
  directory : Option t_directory
  return_code : Int
  error_code : Int
  handling_error : Bool
  mimetype : Option CStr
  keep_alive : Bool
  data_sent : Bool
  kept_alive : Int
  socket_open : Bool
  error_cause : t_error_cause
  deriving DecidableEq

/-- External functions that receive the session pointer and may write the
session. Arguments other than the session are part of the tag. -/
inductive ExtFn where
  | fetch_request
  | parse_request (total : Nat)
  | validate_url
  | duplicate_host
  | uri_to_path
  | load_user_config
  | copy_directory_settings
  | http_authentication_result (optional : Bool)
  | prevent_xss
  | prevent_csrf
  | prevent_sqli
  | proxy_request (rproxy : t_rproxy)
  | handle_trace_request
  | get_path_info
  | get_target_extension
  | execute_cgi
  | can_transform_with_xslt
  | handle_xml_file
  | send_file
  | show_index
  | handle_put_request
  | handle_delete_request
  | send_code
  | send_header
  | send_buffer (buffer : Option String) (size : Nat)
  | reset_session
  deriving DecidableEq

/-- One effectful external call, as seen from `workers.c`. The senders record
`session->return_code` at the moment of the call. -/
inductive Event where
  | call (f : ExtFn)
  | send_code (return_code : Int)
  | send_header (return_code : Int)
  | send_buffer (buffer : Option String) (size : Nat)
  | log_system (message : String)
  | log_error (message : String)
  | log_file_error (file : CStr) (message : String)
  | log_request
  | log_garbage
  | log_exploit_attempt (type : String) (data : CStr)
  | ban_ip (ip : t_ip_addr) (timer : Int) (kick_on_ban : Bool)
  | monitor_counter_ban
  | monitor_counter_exploit_attempt
  | monitor_counter_request
  | monitor_request
  | reposition_client (ip : t_ip_addr)
  | register_tempdata (data : CStr)
  | unlink (file : Option CStr)
  | fork (program : CStr) (return_code : Int)
  | waitpid
  deriving DecidableEq

/-- The external calls made so far, oldest first. -/
abbrev Hist := List Event

/-- The functions of other compilation units used by `workers.c`. -/
structure Env where
  /-- Session-writing externals: result and new session. Boolean results are
  0 (false) or non-zero. -/
  ext : ExtFn → Hist → t_session → Int × t_session
  ip_allowed : t_ip_addr → t_accesslist → t_access
  in_iplist : t_accesslist → t_ip_addr → Bool
  in_charlist : CStr → t_charlist → Bool
  get_http_header : String → t_http_header → Option CStr
  parse_ip : CStr → Option t_ip_addr
  remove_port_from_hostname : CStr → t_binding → CStr
  get_hostrecord : List t_host → CStr → t_binding → Option t_host
  strpcmp : CStr → t_pattern → Int
  rproxy_match : t_rproxy → CStr → Bool
  rproxy_loop_detected : t_http_header → Bool
  forbidden_chars_present : CStr → Bool
  url_decode : CStr → CStr
  find_fcgi_server : List t_fcgi_server → Option CStr → Option t_fcgi_server
  fcgi_server_match : List t_fcgi_server → t_charlist → CStr → Option t_fcgi_server
  init_toolkit_options : CStr → Nat → Bool → Bool → t_http_header → t_toolkit_options
  use_toolkit : Hist → CStr → CStr → t_toolkit_options → t_ut_result × t_toolkit_options
  time : Hist → Int
  ssl_has_peer_cert : Hist → Bool
  is_directory : Hist → Option CStr → t_fsbool
  client_is_flooding : Hist → Bool
  /-- Result of `reposition_client`. -/
  reposition_client : Hist → t_ip_addr → Int
  /-- Whether the next `malloc`, `strdup` or `register_tempdata` succeeds. -/
  alloc_ok : Hist → Bool
  /-- Whether `errno` is `ECONNRESET`. -/
  errno_is_ECONNRESET : Hist → Bool
  /-- Whether `fork` succeeds (seen from the worker, the parent). -/
  fork_ok : Hist → Bool

/-- The global `hs_forwarded`. -/
def hs_forwarded : String := "X-Forwarded-For:"

/-- The global `fb_filesystem`. -/
def fb_filesystem : String := "access denied via filesystem"

/-- The global `fb_accesslist`. -/
def fb_accesslist : String := "access denied via accesslist"

/-- The global `unknown_host`. -/
def unknown_host : CStr := "(unknown)".toList

/-- Session and trace of external calls. -/
structure St where
  s : t_session
  tr : Hist
  deriving DecidableEq

/-- Record one external call that does not write the session. -/
def St.emit (st : St) (e : Event) : St :=
  { st with tr := st.tr ++ [e] }

/-- Assign to fields of the session. -/
def St.upd (st : St) (f : t_session → t_session) : St :=
  { st with s := f st.s }

/-- Call a session-writing external: the session is replaced by what the
callee leaves, the call is recorded, the result is returned. -/
def call (env : Env) (f : ExtFn) (st : St) : Int × St :=
  ((env.ext f st.tr st.s).1, { s := (env.ext f st.tr st.s).2, tr := st.tr ++ [Event.call f] })

/-- The call `send_code(session)`. -/
def send_code (env : Env) (st : St) : Int × St :=
  ((env.ext ExtFn.send_code st.tr st.s).1,
   { s := (env.ext ExtFn.send_code st.tr st.s).2,
     tr := st.tr ++ [Event.send_code st.s.return_code] })

/-- The call `send_header(session)`. -/
def send_header (env : Env) (st : St) : Int × St :=
  ((env.ext ExtFn.send_header st.tr st.s).1,
   { s := (env.ext ExtFn.send_header st.tr st.s).2,
     tr := st.tr ++ [Event.send_header st.s.return_code] })

/-- The call `send_buffer(session, buffer, size)`. -/
def send_buffer (env : Env) (st : St) (buffer : Option String) (size : Nat) : Int × St :=
  ((env.ext (ExtFn.send_buffer buffer size) st.tr st.s).1,
   { s := (env.ext (ExtFn.send_buffer buffer size) st.tr st.s).2,
     tr := st.tr ++ [Event.send_buffer buffer size] })

/-- The test `(timer > 0) && (ip_allowed(&(session->ip_address),
session->config->banlist_mask) != deny)` that guards every `ban_ip`. -/
def may_ban (env : Env) (config : t_config) (s : t_session) (timer : Int) : Bool :=
  decide (timer > 0) && (env.ip_allowed s.ip_address config.banlist_mask != t_access.deny)

/-- The block that follows a successful ban test: `ban_ip(&(session->ip_address),
timer, session->config->kick_on_ban); log_system(session, message);` and, when
the monitor is enabled, `monitor_counter_ban(session)`. -/
def ban_client (config : t_config) (st : St) (timer : Int) (message : String) : St :=
  let st1 := (st.emit (Event.ban_ip st.s.ip_address timer config.kick_on_ban)).emit
    (Event.log_system message)
  if config.monitor_enabled then st1.emit Event.monitor_counter_ban else st1

/-- Source: `check_target_is_cgi` (workers.c 86-114). Returns
`session->cgi_type` and the session. -/
def check_target_is_cgi (env : Env) (config : t_config) (s : t_session) :
    t_cgi_type × t_session :=
  let s0 := { s with cgi_handler := none }
  match env.find_fcgi_server config.fcgi_server s0.toolkit_fastcgi with
  | some srv =>
    let s1 := { s0 with fcgi_server := some srv, cgi_type := t_cgi_type.fastcgi,
                        host := { s0.host with execute_cgi := true } }
    (s1.cgi_type, s1)
  | none =>
    match env.fcgi_server_match config.fcgi_server s0.host.fast_cgi s0.extension with
    | some srv =>
      let s1 := { s0 with fcgi_server := some srv, cgi_type := t_cgi_type.fastcgi }
      (s1.cgi_type, s1)
    | none =>
      let s1 := { s0 with fcgi_server := none }
      if env.in_charlist s1.extension config.cgi_extension then
        let s2 := { s1 with cgi_type := t_cgi_type.binary }
        (s2.cgi_type, s2)
      else
        let s2 := { s1 with cgi_type := t_cgi_type.no_cgi }
        match config.cgi_handler.find? (fun cgi => env.in_charlist s2.extension cgi.extension) with
        | some cgi =>
          let s3 := { s2 with cgi_handler := some cgi.handler, cgi_type := t_cgi_type.script }
          (s3.cgi_type, s3)
        | none => (s2.cgi_type, s2)

/-- The second `switch` of `handle_error` (workers.c 182-199): log the final
code of the error handler; 500 also clears `keep_alive`. -/
def handle_error_log (st : St) (handler : CStr) (result : Int) : St :=
  if result = 301 then st.emit (Event.log_error "ErrorHandler is a directory")
  else if result = 403 then st.emit (Event.log_error "no access to ErrorHandler")
  else if result = 404 then st.emit (Event.log_error "ErrorHandler not found")
  else if result = 500 then
    (st.emit (Event.log_file_error handler "internal error for ErrorHandler")).upd
      (fun s => { s with keep_alive := false })
  else if result = 503 then
    st.emit (Event.log_file_error handler "FastCGI for ErrorHandler not available")
  else st

/-- Source: `handle_error` (workers.c 118-202). -/
def handle_error (env : Env) (config : t_config) (st : St) (error_code : Int) : Int × St :=
  match st.s.host.error_handlers.find? (fun h => decide (h.code = error_code)) with
  | none => (0, st)
  | some error_handler =>
    let st1 := st.upd (fun s => { s with return_code := error_code, error_code := error_code,
                                         handling_error := true, mimetype := none,
                                         vars := error_handler.parameters })
    if env.alloc_ok st1.tr = false then (500, st1)
    else
      let st2 := st1.upd (fun s =>
        { s with file_on_disk := some (s.host.website_root.take s.host.website_root_len
                                        ++ error_handler.handler) })
      let r3 := call env ExtFn.get_target_extension st2
      if r3.1 = -1 then (500, r3.2)
      else
        let st4 := r3.2.upd (fun s => (check_target_is_cgi env config s).2)
        let r5 : Int × St :=
          if st4.s.cgi_type ≠ t_cgi_type.no_cgi then call env ExtFn.execute_cgi st4
          else
            let x := call env ExtFn.can_transform_with_xslt st4
            if x.1 ≠ 0 then call env ExtFn.handle_xml_file x.2
            else
              match env.is_directory x.2.tr x.2.s.file_on_disk with
              | t_fsbool.error => (500, x.2)
              | t_fsbool.yes => (301, x.2)
              | t_fsbool.no => call env ExtFn.send_file x.2
              | t_fsbool.no_access => (403, x.2)
              | t_fsbool.not_found => (404, x.2)
        (r5.1, handle_error_log r5.2 error_handler.handler r5.1)

/-- Source: `handle_timeout` (workers.c 748-760). -/
def handle_timeout (env : Env) (config : t_config) (st : St) : St :=
  if may_ban env config st.s config.ban_on_timeout then
    ban_client config st config.ban_on_timeout "Client banned because of connection timeout"
  else
    st.emit (Event.log_system "Timeout while waiting for request")

/-- The branch `if (session->data_sent == false)` that sets `return_code`,
calls `send_header` and sends `Content-Length: 0` (workers.c 849-853, 858-862). -/
def send_empty_reply (env : Env) (st : St) (result : Int) : St :=
  if st.s.data_sent = false then
    let st1 := st.upd (fun s => { s with return_code := result })
    let st2 := (send_header env st1).2
    (send_buffer env st2 (some "Content-Length: 0\r\n\r\n") 21).2
  else st

/-- The branch `if (session->data_sent == false)` that sets `return_code` and
calls `send_code`; when `check` is set a result of -1 clears `keep_alive`
(workers.c 866-871, 895-900); otherwise the result is ignored (838-841, 907-910). -/
def send_bare_status (env : Env) (st : St) (result : Int) (check : Bool) : St :=
  if st.s.data_sent = false then
    let st1 := st.upd (fun s => { s with return_code := result })
    let r := send_code env st1
    if check && decide (r.1 = -1) then r.2.upd (fun s => { s with keep_alive := false })
    else r.2
  else st

/-- The first `switch` of `handle_request_result`, for `result == -1`
(workers.c 771-841). -/
def handle_transport_error (env : Env) (config : t_config) (st : St) : St :=
  match st.s.error_cause with
  | t_error_cause.ec_MAX_REQUESTSIZE =>
    let st1 := st.emit (Event.log_system "Maximum request size reached")
    let st2 := st1.upd (fun s => { s with return_code := 413 })
    let st3 := (send_code env st2).2
    if may_ban env config st3.s config.ban_on_max_request_size then
      ban_client config st3 config.ban_on_max_request_size
        "Client banned because of sending a too large request"
    else st3
  | t_error_cause.ec_TIMEOUT =>
    if st.s.kept_alive = 0 then
      let st1 := st.upd (fun s => { s with return_code := 408 })
      let st2 := (send_code env st1).2
      handle_timeout env config st2
    else st
  | t_error_cause.ec_CLIENT_DISCONNECTED =>
    if st.s.kept_alive = 0 then st.emit (Event.log_system "Client disconnected") else st
  | t_error_cause.ec_SOCKET_READ_ERROR =>
    if env.errno_is_ECONNRESET st.tr = false then
      st.emit (Event.log_system "Error while reading request")
    else st
  | t_error_cause.ec_SOCKET_WRITE_ERROR => st.emit Event.log_request
  | t_error_cause.ec_FORCE_QUIT => st.emit (Event.log_system "Client kicked")
  | t_error_cause.ec_SQL_INJECTION =>
    let st1 :=
      if may_ban env config st.s config.ban_on_sqli then
        ban_client config st config.ban_on_sqli
          ("Client banned because of SQL injection on " ++ String.mk (st.s.hostname.getD unknown_host))
      else st
    let st2 := st1.upd (fun s => { s with return_code := 441 })
    let st3 := (send_code env st2).2
    st3.emit Event.log_request
  | t_error_cause.ec_INVALID_URL =>
    let st1 :=
      if may_ban env config st.s config.ban_on_invalid_url then
        ban_client config st config.ban_on_invalid_url
          ("Client banned because of invalid URL on " ++ String.mk (st.s.hostname.getD unknown_host))
      else st
    (send_code env st1).2
  | t_error_cause.ec_NONE => send_bare_status env st 500 false

/-- The second `switch` of `handle_request_result`, for `result != -1`
(workers.c 842-911). -/
def handle_status (env : Env) (config : t_config) (st : St) (result : Int) : St :=
  if result = 200 then st
  else if result = 201 ∨ result = 204 ∨ result = 304 ∨ result = 412 then
    send_empty_reply env st result
  else if result = 411 ∨ result = 413 then
    send_empty_reply env (st.upd (fun s => { s with keep_alive := false })) result
  else if result = 400 then
    let st1 := st.emit Event.log_garbage
    let st2 := send_bare_status env st1 400 true
    if may_ban env config st2.s config.ban_on_garbage then
      ban_client config st2 config.ban_on_garbage "Client banned because of sending garbage"
    else st2
  else if result = 401 ∨ result = 403 ∨ result = 404 ∨ result = 501 ∨ result = 503 then
    if st.s.data_sent = false then
      let r := handle_error env config st result
      if r.1 = -1 then r.2.upd (fun s => { s with keep_alive := false })
      else if r.1 = 200 then r.2
      else send_bare_status env r.2 result true
    else st
  else if result = 500 then
    send_bare_status env (st.upd (fun s => { s with keep_alive := false })) result false
  else send_bare_status env st result false

/-- Source: `handle_request_result` (workers.c 764-918). -/
def handle_request_result (env : Env) (config : t_config) (st : St) (result : Int) : St :=
  let st1 := if result = -1 then handle_transport_error env config st
             else handle_status env config st result
  if result > 0 ∧ result ≠ 400 then st1.emit Event.log_request
  else st1.upd (fun s => { s with keep_alive := false })

/-- Source: `run_program` (workers.c 206-272), as the worker (the parent
process) sees it: a failed `fork` is logged and gives -1; otherwise the child
runs `program` with `HTTP_RETURN_CODE` set to `return_code` and the parent
waits for it when `wait_for_cgi` is set. -/
def run_program (env : Env) (config : t_config) (st : St) (program : CStr)
    (return_code : Int) : Int × St :=
  if env.fork_ok st.tr = false then
    (-1, st.emit (Event.log_file_error program "fork() error"))
  else
    let st1 := st.emit (Event.fork program return_code)
    if config.wait_for_cgi then (0, st1.emit Event.waitpid) else (0, st1)

/-- Source: `allow_client` (workers.c 274-290). -/
def allow_client (env : Env) (s : t_session) : t_access :=
  let access := env.ip_allowed s.ip_address s.host.access_list
  if access ≠ t_access.allow then access
  else
    match env.get_http_header hs_forwarded s.http_headers with
    | none => t_access.allow
    | some x_forwarded_for =>
      match env.parse_ip x_forwarded_for with
      | none => t_access.allow
      | some forwarded_ip =>
        if env.ip_allowed forwarded_ip s.host.access_list = t_access.deny then t_access.deny
        else t_access.unspecified

/-- A stage of `serve_client` either returns a status (`some`) or falls
through (`none`). -/
abbrev Stage := Option Int × St

/-- Run the next stage unless the previous one returned. -/
def Stage.next (a : Stage) (f : St → Stage) : Stage :=
  match a.1 with
  | some r => (some r, a.2)
  | none => f a.2

/-- The statements `if ((qmark = strchr(session->uri, '?')) != NULL) { *qmark = '\0';
session->vars = qmark + 1; }`, with `session->uri_len = strlen(session->uri)`
inside the block when `set_len` is set (workers.c 379-383, 438-441, 581-584). -/
def split_query (s : t_session) (set_len : Bool) : t_session :=
  if '?' ∈ s.uri then
    let uri := s.uri.takeWhile (fun c => c != '?')
    { s with uri := uri,
             vars := some ((s.uri.dropWhile (fun c => c != '?')).drop 1),
             uri_len := if set_len then uri.length else s.uri_len }
  else s

/-- The text that `client_ip` points to after `strrchr(client_ip, ',')` and
the loop over leading spaces (workers.c 332-338). -/
def last_forwarded (client_ip : CStr) : CStr :=
  let tail := if ',' ∈ client_ip then (client_ip.reverse.takeWhile (fun c => c != ',')).reverse
              else client_ip
  tail.dropWhile (fun c => c == ' ')

/-- Source: `serve_client`, fetch and parse (workers.c 314-320). -/
def stage_fetch_parse (env : Env) (st : St) : Stage :=
  let r1 := call env ExtFn.fetch_request st
  if r1.1 ≠ 200 then
    (some r1.1, r1.2.upd (fun s => { s with request_method := t_req_method.GET }))
  else
    let r2 := call env (ExtFn.parse_request (r1.2.s.header_length + r1.2.s.content_length)) r1.2
    if r2.1 ≠ 200 then
      (some r2.1, r2.2.upd (fun s => { s with request_method := t_req_method.GET }))
    else (none, r2.2)

/-- Source: `serve_client`, timestamp and hiding of reverse proxies
(workers.c 326-348). -/
def stage_hide_proxy (env : Env) (config : t_config) (st : St) : Stage :=
  let st1 := st.upd (fun s => { s with time := env.time st.tr })
  if env.in_iplist config.hide_proxy st1.s.ip_address then
    match env.get_http_header hs_forwarded st1.s.http_headers with
    | none => (none, st1)
    | some header =>
      let client_ip := last_forwarded header
      if client_ip ≠ [] then
        match env.parse_ip client_ip with
        | none => (none, st1)
        | some ip =>
          let st2 := st1.emit (Event.reposition_client ip)
          if env.reposition_client st1.tr ip ≠ -1 then
            (none, st2.upd (fun s => { s with ip_address := ip }))
          else (none, st2)
      else (none, st1)
  else (none, st1)

/-- Source: `serve_client`, host lookup (workers.c 352-362). -/
def stage_find_host (env : Env) (config : t_config) (binding : t_binding) (st : St) : Stage :=
  let st1 :=
    match st.s.hostname with
    | none => st
    | some hostname =>
      let stripped := env.remove_port_from_hostname hostname binding
      let st0 := st.upd (fun s => { s with hostname := some stripped })
      match env.get_hostrecord config.first_host stripped binding with
      | some host_record => st0.upd (fun s => { s with host := host_record })
      | none => st0
  (none, st1.upd (fun s => { s with host := { s.host with access_time := s.time } }))

/-- Source: `serve_client`, SSL client authentication (workers.c 367-372). -/
def stage_ssl_client_auth (env : Env) (binding : t_binding) (st : St) : Stage :=
  if binding.use_ssl then
    if st.s.host.ca_certificate ≠ none ∧ env.ssl_has_peer_cert st.tr = false then
      (some 440, st.emit (Event.log_error "missing client SSL certificate"))
    else (none, st)
  else (none, st)

/-- Source: `serve_client`, enforced use of SSL (workers.c 378-386). -/
def stage_require_ssl (binding : t_binding) (st : St) : Stage :=
  if st.s.host.require_ssl && (binding.use_ssl == false) then
    (some 301, (st.upd (fun s => split_query s true)).upd
      (fun s => { s with cause_of_301 := t_cause_of_301.require_ssl }))
  else (none, st)

/-- The C string that starts at the body pointer. -/
def c_string (memory : List Char) : CStr :=
  memory.takeWhile (fun c => c != '\x00')

/-- The assignment `*(session->body + session->content_length) = chr`. -/
def poke_body (s : t_session) (chr : Char) : t_session :=
  { s with body := s.body.map (fun memory => memory.set s.content_length chr) }

/-- The loop over `host->deny_body` (workers.c 396-423); `chr` is the byte
saved before the loop. -/
def deny_body_loop (env : Env) (config : t_config) (chr : Char) (st : St) :
    List t_pattern → Stage
  | [] => (none, st)
  | pattern :: rest =>
    if env.strpcmp (c_string (st.s.body.getD [])) pattern = 0 then
      let st1 :=
        if may_ban env config st.s config.ban_on_denied_body then
          ban_client config st config.ban_on_denied_body "Client banned because of denied body"
        else st
      let st2 := st1.emit (Event.log_exploit_attempt "denied body" (c_string (st1.s.body.getD [])))
      let st3 := if config.monitor_enabled then st2.emit Event.monitor_counter_exploit_attempt
                 else st2
      (some 403, st3.upd (fun s => poke_body s chr))
    else deny_body_loop env config chr st rest

/-- Source: `serve_client`, denied bodies (workers.c 391-426). -/
def stage_deny_body (env : Env) (config : t_config) (st : St) : Stage :=
  match st.s.body with
  | none => (none, st)
  | some memory =>
    let chr := memory.getD st.s.content_length '\x00'
    let st1 := st.upd (fun s => poke_body s '\x00')
    (deny_body_loop env config chr st1 st1.s.host.deny_body).next
      (fun st2 => (none, st2.upd (fun s => poke_body s chr)))

/-- The `switch (access = allow_client(session))` block of `serve_client`
(workers.c 463-474 and 617-628). -/
def access_control (env : Env) (st : St) : Stage :=
  match allow_client env st.s with
  | t_access.deny => (some 403, st.emit (Event.log_error fb_accesslist))
  | t_access.allow => (none, st)
  | t_access.pwd =>
    let r := call env (ExtFn.http_authentication_result false) st
    if r.1 ≠ 200 then (some r.1, r.2) else (none, r.2)
  | t_access.unspecified =>
    let r := call env (ExtFn.http_authentication_result true) st
    if r.1 ≠ 200 then (some r.1, r.2) else (none, r.2)

/-- The test `(session->vars != NULL) && (session->host->secure_url)` followed
by `forbidden_chars_present(session->vars)` (workers.c 447-451, 589-593). -/
def secure_url_check (env : Env) (st : St) : Stage :=
  match st.s.vars with
  | some vars =>
    if st.s.host.secure_url && env.forbidden_chars_present vars then (some 403, st)
    else (none, st)
  | none => (none, st)

/-- The chain `duplicate_host`, `uri_to_path`, `load_user_config`,
`copy_directory_settings` of the reverse-proxy block (workers.c 453-461). -/
def resolve_path (env : Env) (st : St) : Stage :=
  let r1 := call env ExtFn.duplicate_host st
  if r1.1 = 0 then (some 500, r1.2)
  else
    let r2 := call env ExtFn.uri_to_path r1.2
    if r2.1 ≠ 200 then (some r2.1, r2.2)
    else
      let r3 := call env ExtFn.load_user_config r2.2
      if r3.1 = -1 then (some 500, r3.2)
      else
        let r4 := call env ExtFn.copy_directory_settings r3.2
        if r4.1 ≠ 200 then (some r4.1, r4.2) else (none, r4.2)

/-- The three request filters of the reverse-proxy block (workers.c 476-488). -/
def prevent_attacks (env : Env) (st : St) : Stage :=
  let st1 := if st.s.host.prevent_xss then (call env ExtFn.prevent_xss st).2 else st
  let st2 := if st1.s.host.prevent_csrf then (call env ExtFn.prevent_csrf st1).2 else st1
  if st2.s.host.prevent_sqli then
    let r := call env ExtFn.prevent_sqli st2
    if r.1 ≠ 0 then (some r.1, r.2) else (none, r.2)
  else (none, st2)

/-- The body of the reverse-proxy loop for a matching rule (workers.c 434-490):
every path returns. -/
def rproxy_block (env : Env) (st : St) (rproxy : t_rproxy) : Stage :=
  if env.rproxy_loop_detected st.s.http_headers then (some 508, st)
  else
    let st1 := st.upd (fun s => split_query s false)
    let r2 := call env ExtFn.validate_url st1
    if r2.1 = 0 then (some (-1), r2.2)
    else
      ((((secure_url_check env r2.2).next (resolve_path env)).next (access_control env)).next
        (prevent_attacks env)).next
        (fun st3 =>
          let r := call env (ExtFn.proxy_request rproxy) st3
          (some r.1, r.2))

/-- Source: `serve_client`, reverse proxy (workers.c 431-494). -/
def stage_rproxy (env : Env) (st : St) : Stage :=
  match st.s.host.rproxy.find? (fun rproxy => env.rproxy_match rproxy st.s.request_uri) with
  | some rproxy => rproxy_block env st rproxy
  | none => (none, st)

/-- Source: `serve_client`, actions based on the request method
(workers.c 499-520). -/
def stage_method (env : Env) (binding : t_binding) (st : St) : Stage :=
  match st.s.request_method with
  | t_req_method.TRACE =>
    if binding.enable_trace = false then (some 501, st)
    else
      let r := call env ExtFn.handle_trace_request st
      (some r.1, r.2)
  | t_req_method.PUT =>
    if binding.enable_alter = false ∧ st.s.host.webdav_app = false then (some 501, st)
    else (none, st)
  | t_req_method.DELETE =>
    if binding.enable_alter = false ∧ st.s.host.webdav_app = false then (some 501, st)
    else (none, st)
  | t_req_method.unknown => (some 400, st)
  | t_req_method.unsupported =>
    if st.s.host.webdav_app = false then (some 501, st) else (none, st)
  | _ => (none, st)

/-- One pass through the body of the URL toolkit loop (workers.c 535-574) for
the rule `rule`: the stage result, the state and the toolkit options left by
`use_toolkit`. A `strdup` of a NULL `new_url` counts as a failed `strdup`. -/
def toolkit_rule (env : Env) (config : t_config) (st : St) (options : t_toolkit_options)
    (rule : CStr) : Stage × t_toolkit_options :=
  let r := env.use_toolkit st.tr st.s.uri rule options
  let opts := r.2
  if r.1 = t_ut_result.UT_ERROR then ((some 500, st), opts)
  else if may_ban env config st.s opts.ban then
    ((some 403, ban_client config st opts.ban
      "Client banned because of URL match in UrlToolkit rule"), opts)
  else
    let st1 := st.upd (fun s => { s with toolkit_fastcgi := opts.fastcgi_server })
    let registered : Stage :=
      match opts.new_url with
      | some new_url =>
        if env.alloc_ok st1.tr = false then
          (some 500, st1.emit (Event.register_tempdata new_url))
        else
          (none, (st1.emit (Event.register_tempdata new_url)).upd
            (fun s => { s with tempdata := new_url :: s.tempdata, uri := new_url }))
      | none => (none, st1)
    (registered.next (fun st2 =>
      if r.1 = t_ut_result.UT_REDIRECT then
        match opts.new_url with
        | some new_url =>
          if env.alloc_ok st2.tr = false then (some (-1), st2)
          else (some 301, st2.upd (fun s => { s with location := some new_url,
                                                     cause_of_301 := t_cause_of_301.location }))
        | none => (some (-1), st2)
      else if r.1 = t_ut_result.UT_DENY_ACCESS then
        (some 403, st2.emit (Event.log_error "access denied via URL toolkit rule"))
      else if opts.expire > -1 then (none, st2.upd (fun s => { s with expires := opts.expire }))
      else (none, st2)), opts)

/-- The loop `for (i = 0; i < session->host->toolkit_rules.size; i++)`
(workers.c 534-575) over the rules still to be evaluated. -/
def toolkit_loop (env : Env) (config : t_config) (st : St) (options : t_toolkit_options) :
    List CStr → Stage
  | [] => (none, st)
  | rule :: rest =>
    match (toolkit_rule env config st options rule).1.1 with
    | some r => (some r, (toolkit_rule env config st options rule).1.2)
    | none =>
      toolkit_loop env config (toolkit_rule env config st options rule).1.2
        (toolkit_rule env config st options rule).2 rest

/-- Source: `serve_client`, URL toolkit (workers.c 526-576). -/
def stage_toolkit (env : Env) (config : t_config) (binding : t_binding) (st : St) : Stage :=
  let toolkit_options := env.init_toolkit_options st.s.host.website_root config.url_toolkit
    binding.use_ssl st.s.host.allow_dot_files st.s.http_headers
  if st.s.request_method ≠ t_req_method.PUT ∧ st.s.request_method ≠ t_req_method.DELETE then
    toolkit_loop env config st toolkit_options st.s.host.toolkit_rules
  else (none, st)

/-- Source: `serve_client`, GET data, URL decoding and path resolution
(workers.c 581-615). -/
def stage_resolve (env : Env) (st : St) : Stage :=
  let st1 := st.upd (fun s => split_query s false)
  let st2 := st1.upd (fun s => { s with uri := env.url_decode s.uri,
                                        uri_len := (env.url_decode s.uri).length })
  (secure_url_check env st2).next (fun st3 =>
    let r1 := call env ExtFn.duplicate_host st3
    if r1.1 = 0 then (some 500, r1.2)
    else
      let r2 := call env ExtFn.validate_url r1.2
      if r2.1 = 0 then (some (-1), r2.2)
      else
        let r3 := call env ExtFn.uri_to_path r2.2
        if r3.1 ≠ 200 then (some r3.1, r3.2)
        else
          let r4 := call env ExtFn.load_user_config r3.2
          if r4.1 = -1 then (some 500, r4.2)
          else
            let r5 := call env ExtFn.copy_directory_settings r4.2
            if r5.1 ≠ 200 then (some r5.1, r5.2) else (none, r5.2))

/-- Source: `serve_client`, kind of the target (workers.c 630-650). -/
def stage_target_kind (env : Env) (st : St) : Stage :=
  match env.is_directory st.tr st.s.file_on_disk with
  | t_fsbool.error => (some 500, st)
  | t_fsbool.yes => (none, st.upd (fun s => { s with uri_is_dir := true }))
  | t_fsbool.no =>
    if (st.s.request_method ≠ t_req_method.PUT ∨ st.s.host.webdav_app = true)
        ∧ st.s.host.enable_path_info = true then
      let r := call env ExtFn.get_path_info st
      if r.1 ≠ 200 then (some r.1, r.2) else (none, r.2)
    else (none, st)
  | t_fsbool.no_access => (some 403, st.emit (Event.log_error fb_filesystem))
  | t_fsbool.not_found =>
    if st.s.request_method = t_req_method.DELETE then (some 404, st) else (none, st)

/-- Source: `serve_client`, start file of a directory or redirect to the
trailing slash (workers.c 653-663). A NULL or empty `file_on_disk` has no
last character. -/
def stage_start_file (st : St) : Stage :=
  if st.s.toolkit_fastcgi = none ∧ st.s.uri_is_dir = true then
    if (st.s.file_on_disk.getD []).getLast? = some '/' then
      (none, st.upd (fun s =>
        { s with file_on_disk := some (s.file_on_disk.getD [] ++ s.host.start_file) }))
    else (some 301, st)
  else (none, st)

/-- Source: `serve_client`, extension and CGI classification (workers.c 665-671). -/
def stage_classify (env : Env) (config : t_config) (st : St) : Stage :=
  let r := call env ExtFn.get_target_extension st
  if r.1 = -1 then (some 500, r.2)
  else if (r.2.s.request_method ≠ t_req_method.PUT ∧ r.2.s.request_method ≠ t_req_method.DELETE)
      ∨ r.2.s.host.webdav_app = true then
    (none, r.2.upd (fun s => (check_target_is_cgi env config s).2))
  else (none, r.2)

/-- The local `request_method` of `serve_client` (workers.c 675-680). -/
def dispatch_method (s : t_session) : t_req_method :=
  if s.host.webdav_app then
    if s.request_method = t_req_method.PUT ∨ s.request_method = t_req_method.DELETE then
      t_req_method.POST
    else s.request_method
  else s.request_method

/-- The `GET`/`HEAD` case of the dispatch, choice of the content handler
(workers.c 685-694). -/
def dispatch_get_content (env : Env) (st : St) : Int × St :=
  if st.s.cgi_type ≠ t_cgi_type.no_cgi then
    call env ExtFn.execute_cgi (st.upd (fun s => { s with body := none }))
  else
    let x := call env ExtFn.can_transform_with_xslt st
    if x.1 ≠ 0 then call env ExtFn.handle_xml_file x.2
    else call env ExtFn.send_file x.2

/-- The `GET`/`HEAD` case of the dispatch, directory index after a 404 and
removal of a served monitor file (workers.c 695-707); `r` is the result so
far. An empty URI has no last character. -/
def dispatch_get_index (env : Env) (config : t_config) (r : Int × St) : Int × St :=
  if r.1 = 404 then
    if r.2.s.host.show_index ≠ none ∧ 0 < r.2.s.uri_len
        ∧ r.2.s.uri.get? (r.2.s.uri_len - 1) = some '/' then
      call env ExtFn.show_index r.2
    else r
  else if config.monitor_enabled then
    if r.1 = 200 ∧ r.2.s.host.monitor_host = true then
      (r.1, r.2.emit (Event.unlink r.2.s.file_on_disk))
    else r
  else r

/-- The `GET`/`HEAD` case of the dispatch, the `run_on_download` program
(workers.c 709-713); `r` is the result so far. -/
def dispatch_get_hook (env : Env) (config : t_config) (r : Int × St) : Int × St :=
  if r.2.s.request_method = t_req_method.GET ∧ r.2.s.cgi_type = t_cgi_type.no_cgi then
    match r.2.s.directory with
    | some directory =>
      match directory.run_on_download with
      | some program => (r.1, (run_program env config r.2 program r.1).2)
      | none => r
    | none => r
  else r

/-- The `GET`/`HEAD` case of the dispatch (workers.c 685-714). -/
def dispatch_get (env : Env) (config : t_config) (st : St) : Int × St :=
  dispatch_get_hook env config (dispatch_get_index env config (dispatch_get_content env st))

/-- The `POST`/`unsupported` case of the dispatch (workers.c 717-726). -/
def dispatch_post (env : Env) (st : St) : Int × St :=
  if st.s.cgi_type ≠ t_cgi_type.no_cgi then call env ExtFn.execute_cgi st
  else
    let x := call env ExtFn.can_transform_with_xslt st
    if x.1 ≠ 0 then call env ExtFn.handle_xml_file x.2
    else (405, x.2)

/-- The `PUT` case of the dispatch (workers.c 728-732). -/
def dispatch_put (env : Env) (config : t_config) (st : St) : Int × St :=
  let r := call env ExtFn.handle_put_request st
  if r.1 = 201 ∨ r.1 = 204 then
    match r.2.s.host.run_on_alter with
    | some program => (r.1, (run_program env config r.2 program r.1).2)
    | none => r
  else r

/-- The `DELETE` case of the dispatch (workers.c 734-738). -/
def dispatch_delete (env : Env) (config : t_config) (st : St) : Int × St :=
  let r := call env ExtFn.handle_delete_request st
  if r.1 = 204 then
    match r.2.s.host.run_on_alter with
    | some program => (r.1, (run_program env config r.2 program r.1).2)
    | none => r
  else r

/-- Source: `serve_client`, dispatch on the request method (workers.c 675-743). -/
def stage_dispatch (env : Env) (config : t_config) (st : St) : Int × St :=
  match dispatch_method st.s with
  | t_req_method.GET => dispatch_get env config st
  | t_req_method.HEAD => dispatch_get env config st
  | t_req_method.POST => dispatch_post env st
  | t_req_method.unsupported => dispatch_post env st
  | t_req_method.PUT => dispatch_put env config st
  | t_req_method.DELETE => dispatch_delete env config st
  | _ => (400, st)

/-- The first stages of `serve_client`: fetch and parse, hiding of reverse
proxies, host lookup (workers.c 314-362). The result is `none` exactly when
`fetch_request` and `parse_request` both returned 200; the state then holds
the resolved host. -/
def serve_client_resolve (env : Env) (config : t_config) (binding : t_binding) (st : St) :
    Stage :=
  ((stage_fetch_parse env st).next (stage_hide_proxy env config)).next
    (stage_find_host env config binding)

/-- The stages of `serve_client` up to and including the reverse proxy
(workers.c 314-494). -/
def serve_client_head (env : Env) (config : t_config) (binding : t_binding) (st : St) : Stage :=
  ((((serve_client_resolve env config binding st).next (stage_ssl_client_auth env binding)).next
    (stage_require_ssl binding)).next (stage_deny_body env config)).next (stage_rproxy env)

/-- The stages of `serve_client` from the URL toolkit on (workers.c 526-743). -/
def serve_client_tail (env : Env) (config : t_config) (binding : t_binding) (st : St) : Stage :=
  ((((((stage_toolkit env config binding st).next (stage_resolve env)).next
    (access_control env)).next (stage_target_kind env)).next stage_start_file).next
    (stage_classify env config)).next
    (fun st1 => (some (stage_dispatch env config st1).1, (stage_dispatch env config st1).2))

/-- The state in which `serve_client` enters the URL toolkit stage: the
stages up to the reverse proxy and the method gate, when they all fall
through (workers.c 314-520). -/
def serve_client_gate (env : Env) (config : t_config) (binding : t_binding) (st : St) : Stage :=
  (serve_client_head env config binding st).next (stage_method env binding)

/-- The stages of `serve_client` in source order; a stage that returns ends
the function. -/
def serve_client_stages (env : Env) (config : t_config) (binding : t_binding) (st : St) : Stage :=
  (serve_client_gate env config binding st).next (serve_client_tail env config binding)

/-- Source: `serve_client` (workers.c 294-744): the returned status and the
state it leaves. The last stage always returns; the default of `getD`
is never used. -/
def serve_client (env : Env) (config : t_config) (binding : t_binding) (st : St) : Int × St :=
  ((serve_client_stages env config binding st).1.getD 400,
   (serve_client_stages env config binding st).2)

/-- Source: `connection_handler`, the flood check at the end of one pass of
the keep-alive loop (workers.c 995-1008). -/
def flood_check (env : Env) (config : t_config) (st : St) : St :=
  if st.s.kept_alive > 0 ∧ config.ban_on_flooding > 0 then
    if env.client_is_flooding st.tr then
      if env.ip_allowed st.s.ip_address config.banlist_mask ≠ t_access.deny then
        let st1 := (st.emit (Event.ban_ip st.s.ip_address config.ban_on_flooding
          config.kick_on_ban)).emit (Event.log_system "Client banned because of flooding")
        let st2 := st1.upd (fun s => { s with keep_alive := false })
        if config.monitor_enabled then st2.emit Event.monitor_counter_ban else st2
      else st
    else st
  else st

/-- Source: `connection_handler`, one pass of the body of the keep-alive loop
(workers.c 971-1008). -/
def connection_handler_pass (env : Env) (config : t_config) (binding : t_binding) (st : St) : St :=
  let r := serve_client env config binding st
  let st1 := handle_request_result env config r.2 r.1
  let st2 := if st1.s.socket_open then (send_buffer env st1 none 0).2 else st1
  let st3 :=
    if config.monitor_enabled then
      let st30 := st2.emit Event.monitor_counter_request
      if st30.s.host.monitor_requests = true ∧ r.1 > 0 then st30.emit Event.monitor_request
      else st30
    else st2
  let st4 := (call env ExtFn.reset_session st3).2
  flood_check env config st4

/-- Events that put bytes on the wire of this connection or run request
machinery that may do so: the three senders and every session-writing
external. Loggers, monitor counters and the ban list are not among them. -/
def on_wire : Event → Bool
  | Event.send_code _ => true
  | Event.send_header _ => true
  | Event.send_buffer _ _ => true
  | Event.call _ => true
  | _ => false

/-- Calls of `ban_ip`. -/
def is_ban : Event → Bool
  | Event.ban_ip _ _ _ => true
  | _ => false

/-- A host without handlers, rules or restrictions, for concrete runs. -/
def sample_host : t_host :=
  { website_root := "/var/www".toList, website_root_len := 8, access_time := 0,
    access_list := 0, error_handlers := [], ca_certificate := none, require_ssl := false,
    deny_body := [], rproxy := [], toolkit_rules := [], secure_url := false,
    prevent_xss := false, prevent_csrf := false, prevent_sqli := false, webdav_app := false,
    enable_path_info := false, allow_dot_files := false, start_file := "index.html".toList,
    show_index := none, run_on_alter := none, monitor_host := false, monitor_requests := false,
    fast_cgi := 0, execute_cgi := false }

/-- A plain-text binding, for concrete runs. -/
def sample_binding : t_binding :=
  { use_ssl := false, enable_trace := false, enable_alter := false,
    time_for_1st_request := 5, time_for_request := 30 }

/-- A configuration with every ban switched off, for concrete runs. -/
def sample_config : t_config :=
  { first_host := [sample_host], fcgi_server := [], cgi_extension := 0, cgi_handler := [],
    hide_proxy := 0, banlist_mask := 0, url_toolkit := 0, kick_on_ban := false,
    monitor_enabled := false, wait_for_cgi := false, reconnect_delay := 0,
    ban_on_denied_body := 0, ban_on_timeout := 0, ban_on_max_request_size := 0,
    ban_on_sqli := 0, ban_on_invalid_url := 0, ban_on_garbage := 0, ban_on_flooding := 0 }

/-- A freshly reset session on its first request, for concrete runs. -/
def sample_session : t_session :=
  { request_method := t_req_method.GET, header_length := 0, content_length := 0, time := 0,
    ip_address := { family := 2, value := 1 }, http_headers := 0, hostname := none,
    host := sample_host, uri := "/".toList, uri_len := 1, vars := none,
    request_uri := "/".toList, body := none, cause_of_301 := t_cause_of_301.missing_slash,
    location := none, toolkit_fastcgi := none, tempdata := [], expires := -1,
    file_on_disk := none, uri_is_dir := false, extension := [], cgi_type := t_cgi_type.no_cgi,
    cgi_handler := none, fcgi_server := none, directory := none, return_code := 200,
    error_code := -1, handling_error := false, mimetype := none, keep_alive := true,
    data_sent := false, kept_alive := 0, socket_open := true,
    error_cause := t_error_cause.ec_NONE }

/-- An environment in which every session-writing external returns 200 and
leaves the session alone, lists are empty, nothing matches and every address
is allowed, for concrete runs. -/
def sample_env : Env :=
  { ext := fun _ _ s => (200, s),
    ip_allowed := fun _ _ => t_access.allow,
    in_iplist := fun _ _ => false,
    in_charlist := fun _ _ => false,
    get_http_header := fun _ _ => none,
    parse_ip := fun _ => none,
    remove_port_from_hostname := fun h _ => h,
    get_hostrecord := fun _ _ _ => none,
    strpcmp := fun _ _ => 1,
    rproxy_match := fun _ _ => false,
    rproxy_loop_detected := fun _ => false,
    forbidden_chars_present := fun _ => false,
    url_decode := fun u => u,
    find_fcgi_server := fun _ _ => none,
    fcgi_server_match := fun _ _ _ => none,
    init_toolkit_options := fun _ _ _ _ _ =>
      { ban := 0, fastcgi_server := none, new_url := none, expire := -1 },
    use_toolkit := fun _ _ _ o => (t_ut_result.UT_OTHER, o),
    time := fun _ => 0,
    ssl_has_peer_cert := fun _ => false,
    is_directory := fun _ _ => t_fsbool.no,
    client_is_flooding := fun _ => false,
    reposition_client := fun _ _ => 0,
    alloc_ok := fun _ => true,
    errno_is_ECONNRESET := fun _ => false,
    fork_ok := fun _ => true }

/-- Input for C1: a session that has already sent data and then meets the
request-size limit. -/
def c1_state : St :=
  { s := { sample_session with data_sent := true,
                               error_cause := t_error_cause.ec_MAX_REQUESTSIZE },
    tr := [] }

/-- The trace of `st1` is the trace of `st` followed by events that all
satisfy `P`: what a piece of code adds to the trace. -/
def adds (P : Event → Prop) (st st1 : St) : Prop :=
  ∃ new : List Event, st1.tr = st.tr ++ new ∧ ∀ e ∈ new, P e

/-- The trace of `st1` is the trace of `st` followed by events that are not
on the wire (log lines, monitor counters, bans). -/
def only_logs (st st1 : St) : Prop :=
  adds (fun e => on_wire e = false) st st1

/-- The condition under which a ban is in order: the duration is positive and
the address is not denied by `config->banlist_mask`. True of every event that
is not a `ban_ip`. -/
def ban_ok (env : Env) (config : t_config) : Event → Prop
  | Event.ban_ip ip timer _ =>
    timer > 0 ∧ env.ip_allowed ip config.banlist_mask ≠ t_access.deny
  | _ => True

/-- Input for the witness of C1: a session that has already sent data and is
then kicked. -/
def c1_kicked : St :=
  { s := { sample_session with data_sent := true,
                               error_cause := t_error_cause.ec_FORCE_QUIT },
    tr := [] }

/-- Environment for C3: `send_file` fails with -1 (the write to the client
failed) and no XSLT transformation applies. -/
def c3_env : Env :=
  { sample_env with
    ext := fun f _ s =>
      match f with
      | ExtFn.send_file => (-1, s)
      | ExtFn.can_transform_with_xslt => (0, s)
      | _ => (200, s) }

/-- Input for C3: a host with an error handler for 404, nothing sent yet. -/
def c3_state : St :=
  { s := { sample_session with
           host := { sample_host with
                     error_handlers := [{ code := 404, handler := "/404.html".toList,
                                          parameters := none }] } },
    tr := [] }

/-- Input for C4: a plain-text request for a host that requires SSL. -/
def c4_state : St :=
  { s := { sample_session with host := { sample_host with require_ssl := true },
                               uri := "/x?y=1".toList, uri_len := 6 },
    tr := [] }

/-- Between `st` and `st1` no `ban_ip` was called. -/
def no_bans (st st1 : St) : Prop :=
  adds (fun e => is_ban e = false) st st1

/-- What a stage started in `st` did about bans: every `ban_ip` it called was
in order, and it either called none or called exactly one and returned 403. -/
def stage_bans (env : Env) (config : t_config) (st : St) (a : Stage) : Prop :=
  ∃ new : List Event, a.2.tr = st.tr ++ new ∧ (∀ e ∈ new, ban_ok env config e) ∧
    (new.countP is_ban = 0 ∨ (new.countP is_ban = 1 ∧ a.1 = some 403))

/-- Between `st` and `st1` every `ban_ip` was in order and there was at most
one. -/
def at_most_one_ban (env : Env) (config : t_config) (st st1 : St) : Prop :=
  ∃ new : List Event, st1.tr = st.tr ++ new ∧ (∀ e ∈ new, ban_ok env config e) ∧
    new.countP is_ban ≤ 1

/-- Input for C6: a POST whose body `ab` is followed in the request buffer by
the byte `Z`; the host denies pattern 7. -/
def c6_state : St :=
  { s := { sample_session with request_method := t_req_method.POST,
                               content_length := 2,
                               body := some ['a', 'b', 'Z'],
                               host := { sample_host with deny_body := [7] } },
    tr := [] }

/-- Environment for C6: every pattern matches every body. -/
def c6_env : Env :=
  { sample_env with strpcmp := fun _ _ => 0 }

/-- The state and the toolkit options with which the URL toolkit loop goes on
after the rules `rules`, when none of them made `serve_client` return; `none`
when one of them did. -/
def toolkit_after (env : Env) (config : t_config) (st : St) (options : t_toolkit_options) :
    List CStr → Option (St × t_toolkit_options)
  | [] => some (st, options)
  | rule :: rest =>
    match (toolkit_rule env config st options rule).1.1 with
    | some _ => none
    | none =>
      toolkit_after env config (toolkit_rule env config st options rule).1.2
        (toolkit_rule env config st options rule).2 rest

/-- Environment for C8: the rule `ban` asks for a ban of 60 seconds, every
other rule does nothing; addresses are denied by list 9 only. -/
def c8_env : Env :=
  { sample_env with
    use_toolkit := fun _ _ rule o =>
      if rule = "ban".toList then (t_ut_result.UT_OTHER, { o with ban := 60 })
      else (t_ut_result.UT_OTHER, o),
    ip_allowed := fun _ list => if list = 9 then t_access.deny else t_access.allow }

/-- Input for C8: a GET for a host with the toolkit rules `pass` and `ban`. -/
def c8_state : St :=
  { s := { sample_session with
           host := { sample_host with toolkit_rules := ["pass".toList, "ban".toList] } },
    tr := [] }

/-- Configuration for C8 in which list 9, that denies the peer, is the
`banlist_mask`. -/
def c8_masked : t_config :=
  { sample_config with banlist_mask := 9 }

/-- The state in which the run of C8 enters the URL toolkit stage. -/
def c8_gate_state : St :=
  { s := c8_state.s,
    tr := [Event.call ExtFn.fetch_request, Event.call (ExtFn.parse_request 0)] }

/-- Input for C10: the first request of a connection timed out. -/
def c10_state : St :=
  { s := { sample_session with error_cause := t_error_cause.ec_TIMEOUT },
    tr := [] }

/-- Configuration for C10: a timeout is punished with a ban of 30 seconds. -/
def c10_config : t_config :=
  { sample_config with ban_on_timeout := 30 }

/-- The stages of `serve_client` between the method gate and the dispatch
(workers.c 526-671): the result is `none` when the request reaches the
dispatch on the request method, in the state given. -/
def serve_client_classified (env : Env) (config : t_config) (binding : t_binding) (st : St) :
    Stage :=
  (((((stage_toolkit env config binding st).next (stage_resolve env)).next
    (access_control env)).next (stage_target_kind env)).next stage_start_file).next
    (stage_classify env config)

/-- Environment for C11: the peer is a trusted proxy and sends
`X-Forwarded-For: 10.0.0.1, 10.0.0.2`; only `10.0.0.2` parses, as address 2. -/
def c11_env : Env :=
  { sample_env with
    in_iplist := fun _ _ => true,
    get_http_header := fun _ _ => some "10.0.0.1, 10.0.0.2".toList,
    parse_ip := fun s => if s = "10.0.0.2".toList then some { family := 2, value := 2 }
                         else none }

/-- Binding for C15: PUT and DELETE are enabled. -/
def c15_binding : t_binding :=
  { sample_binding with enable_alter := true }

/-- Input for C15: a DELETE for a host that is not a WebDAV application and
has PATH_INFO enabled; the target is a regular file. -/
def c15_state : St :=
  { s := { sample_session with request_method := t_req_method.DELETE,
                               host := { sample_host with enable_path_info := true } },
    tr := [] }

/-- Input for C16: a PUT for a host with a `run_on_alter` program. -/
def c16_state : St :=
  { s := { sample_session with request_method := t_req_method.PUT,
                               host := { sample_host with
                                         run_on_alter := some "/usr/bin/hook".toList } },
    tr := [] }

/-- Environment for C16: `handle_put_request` creates the file (201). -/
def c16_env : Env :=
  { sample_env with
    ext := fun f _ s =>
      match f with
      | ExtFn.handle_put_request => (201, s)
      | _ => (200, s) }

/-- Input for C18: the access list allows the peer and the request carries a
forwarded address. -/
def c18_env : Env :=
  { sample_env with
    get_http_header := fun _ _ => some "10.0.0.2".toList,
    parse_ip := fun _ => some { family := 2, value := 2 } }

/-- Events of the `POST` dispatch: the CGI, the XSLT test and the XSLT
transformation. -/
def post_event (e : Event) : Prop :=
  e = Event.call ExtFn.execute_cgi ∨ e = Event.call ExtFn.can_transform_with_xslt ∨
    e = Event.call ExtFn.handle_xml_file

/-- Source: `connection_handler`, one pass of the keep-alive loop up to and
including `reset_session` (workers.c 971-990): the state in which the flood
check runs. -/
def connection_handler_request (env : Env) (config : t_config) (binding : t_binding) (st : St) :
    St :=
  let r := serve_client env config binding st
  let st1 := handle_request_result env config r.2 r.1
  let st2 := if st1.s.socket_open then (send_buffer env st1 none 0).2 else st1
  let st3 :=
    if config.monitor_enabled then
      let st30 := st2.emit Event.monitor_counter_request
      if st30.s.host.monitor_requests = true ∧ r.1 > 0 then st30.emit Event.monitor_request
      else st30
    else st2
  (call env ExtFn.reset_session st3).2

/-- Source: `connection_handler`, the loop `do ... while (session->keep_alive
&& session->socket_open)` (workers.c 970-1009). `fuel` bounds the number of
passes; `none` means the loop is still running after `fuel` passes. -/
def connection_handler_loop (env : Env) (config : t_config) (binding : t_binding) :
    Nat → St → Option St
  | 0, _ => none
  | fuel + 1, st =>
    if (connection_handler_pass env config binding st).s.keep_alive
        && (connection_handler_pass env config binding st).s.socket_open then
      connection_handler_loop env config binding fuel
        (connection_handler_pass env config binding st)
    else some (connection_handler_pass env config binding st)

/-- Environment for C12: the client is flooding; addresses are denied by
list 9 only. -/
def c12_env : Env :=
  { sample_env with
    client_is_flooding := fun _ => true,
    ip_allowed := fun _ list => if list = 9 then t_access.deny else t_access.allow }

/-- Configuration for C12: flooding is punished with a ban of 60 seconds and
list 9, that denies the peer, is the `banlist_mask`. -/
def c12_masked : t_config :=
  { sample_config with ban_on_flooding := 60, banlist_mask := 9 }

/-- Configuration for C12: flooding is punished with a ban of 60 seconds. -/
def c12_config : t_config :=
  { sample_config with ban_on_flooding := 60 }

/-- Input for C12: the second request on a kept-alive connection. -/
def c12_state : St :=
  { s := { sample_session with kept_alive := 1 }, tr := [] }

/-- The address of a `t_session`, as the thread pool sees it. -/
abbrev t_session_ref := Nat

/-- One record of the thread pool, `t_thread_pool`. -/
structure t_thread_pool where
  worker : Nat
  session : Option t_session_ref
  quit : Bool
  deriving DecidableEq

/-- What the worker module asks of the C library and pthreads, in call
order. The session is the one a new thread record was made for. -/
inductive t_pool_event where
  | stderr (message : String)
  | pthread_create (worker : Nat) (session : Option t_session_ref)
  | pthread_cond_signal (result : Int)
  deriving DecidableEq

/-- The globals of the worker module (workers.c 75-81) that the thread pool
functions read and write under `thread_pool_mutex`, and the trace of their
library calls. `thread_pool` and `session_list` are the linked lists, head
first. -/
structure t_workers where
  initial_thread_pool_size : Int
  thread_pool : List t_thread_pool
  session_list : List t_session_ref
  waiting_workers : Int
  thread_pool_size : Int
  calls : List t_pool_event
  deriving DecidableEq

/-- Results of the library calls of one `start_worker`: whether `malloc`
returns memory, the return codes of the pthread functions (0 is success) and
the handle of a created thread. -/
structure t_os where
  malloc_ok : Bool
  pthread_attr_init : Int
  pthread_attr_setdetachstate : Int
  pthread_attr_setstacksize : Int
  pthread_create : Int
  pthread_cond_signal : Int
  worker : Nat
  deriving DecidableEq

/-- The walk of `last_session` from a node with session `session` whose
successors are given (workers.c 1048-1051): the nodes that stay, and the
session of the last node. -/
def last_session_walk : List t_session_ref → t_session_ref → List t_session_ref × t_session_ref
  | [], session => ([], session)
  | next :: rest, session =>
    (session :: (last_session_walk rest next).1, (last_session_walk rest next).2)

/-- Source: `last_session` (workers.c 1040-1063), called with `session_list`:
the session returned (`none` is NULL) and the list that is left. -/
def last_session (list : List t_session_ref) : Option t_session_ref × List t_session_ref :=
  match list with
  | [] => (none, [])
  | session :: rest => (some (last_session_walk rest session).2, (last_session_walk rest session).1)

/-- Source: `add_thread_to_pool` (workers.c 1126-1165). -/
def add_thread_to_pool (w : t_workers) (os : t_os) (session : Option t_session_ref) :
    Int × t_workers :=
  if os.malloc_ok = false then (-1, w)
  else if os.pthread_attr_init ≠ 0 then
    (-1, { w with calls := w.calls ++ [t_pool_event.stderr "pthread init error.\n"] })
  else if os.pthread_attr_setdetachstate ≠ 0 then
    (-1, { w with calls := w.calls ++ [t_pool_event.stderr "pthread set detach state error.\n"] })
  else if os.pthread_attr_setstacksize ≠ 0 then
    (-1, { w with calls := w.calls ++ [t_pool_event.stderr "pthread set stack size error.\n"] })
  else if os.pthread_create ≠ 0 then
    (-1, { w with calls := w.calls ++ [t_pool_event.pthread_create os.worker session,
                                       t_pool_event.stderr "pthread create error.\n"] })
  else
    (0, { w with thread_pool := { worker := os.worker, session := session, quit := false }
                                  :: w.thread_pool,
                 thread_pool_size := w.thread_pool_size + 1,
                 calls := w.calls ++ [t_pool_event.pthread_create os.worker session] })

/-- Source: `start_worker`, thread-pool build (workers.c 1197-1225). -/
def start_worker (w : t_workers) (os : t_os) (session : t_session_ref) : Int × t_workers :=
  if w.waiting_workers ≤ 0 then
    if (add_thread_to_pool w os (some session)).1 = -1 then
      (-1, (add_thread_to_pool w os (some session)).2)
    else (0, (add_thread_to_pool w os (some session)).2)
  else if os.malloc_ok = false then (-1, w)
  else
    let w1 := { w with session_list := session :: w.session_list,
                       calls := w.calls ++ [t_pool_event.pthread_cond_signal os.pthread_cond_signal] }
    if os.pthread_cond_signal ≠ 0 then
      (-1, { w1 with session_list := w1.session_list.tail })
    else (0, { w1 with waiting_workers := w1.waiting_workers - 1 })

/-- The first loop of `manage_thread_pool` (workers.c 1260-1266): the number
of records marked `quit`. -/
def count_quit : List t_thread_pool → Int
  | [] => 0
  | thread :: rest => if thread.quit then count_quit rest + 1 else count_quit rest

/-- The second loop of `manage_thread_pool` (workers.c 1271-1278): mark the
first record that is not yet marked. -/
def mark_quit : List t_thread_pool → List t_thread_pool
  | [] => []
  | thread :: rest =>
    if thread.quit = false then { thread with quit := true } :: rest
    else thread :: mark_quit rest

/-- Source: `manage_thread_pool` (workers.c 1254-1282). -/
def manage_thread_pool (w : t_workers) : t_workers :=
  let last_run := count_quit w.thread_pool
  let kill := (w.thread_pool_size - last_run) - w.initial_thread_pool_size
  if kill > 0 then { w with thread_pool := mark_quit w.thread_pool } else w

/-- The workers of a pool that are not marked `quit`. -/
def running (pool : List t_thread_pool) : Nat :=
  pool.countP (fun thread => thread.quit == false)

/-- The successful calls of `pthread_cond_signal` in a trace. -/
def signals (calls : List t_pool_event) : Nat :=
  calls.count (t_pool_event.pthread_cond_signal 0)

/-- An operation on the queue of pending sessions: `start_worker` queues a
session (workers.c 1209-1212), a worker takes one with `last_session`. -/
inductive t_queue_op where
  | enqueue (session : t_session_ref)
  | dequeue
  deriving DecidableEq

/-- Run operations on the queue: the results of the `last_session` calls in
order, and the list that is left. -/
def queue_run : List t_session_ref → List t_queue_op →
    List (Option t_session_ref) × List t_session_ref
  | list, [] => ([], list)
  | list, t_queue_op.enqueue session :: ops => queue_run (session :: list) ops
  | list, t_queue_op.dequeue :: ops =>
    ((last_session list).1 :: (queue_run (last_session list).2 ops).1,
     (queue_run (last_session list).2 ops).2)

/-- The sessions queued by a sequence of operations, in order. -/
def enqueued : List t_queue_op → List t_session_ref
  | [] => []
  | t_queue_op.enqueue session :: ops => session :: enqueued ops
  | t_queue_op.dequeue :: ops => enqueued ops

/-- A pool of three workers, the first already marked `quit`, for concrete
runs. -/
def sample_workers : t_workers :=
  { initial_thread_pool_size := 1,
    thread_pool := [{ worker := 3, session := none, quit := true },
                    { worker := 2, session := none, quit := false },
                    { worker := 1, session := none, quit := false }],
    session_list := [11, 10], waiting_workers := 1, thread_pool_size := 3, calls := [] }

/-- Library results with which nothing fails, for concrete runs. -/
def sample_os : t_os :=
  { malloc_ok := true, pthread_attr_init := 0, pthread_attr_setdetachstate := 0,
    pthread_attr_setstacksize := 0, pthread_create := 0, pthread_cond_signal := 0, worker := 4 }

/-! ## Trace bookkeeping -/

@[simp]
theorem St.emit_tr (st : St) (e : Event) : (st.emit e).tr = st.tr ++ [e] := rfl

@[simp]
theorem St.emit_s (st : St) (e : Event) : (st.emit e).s = st.s := rfl

@[simp]
theorem St.upd_tr (st : St) (f : t_session → t_session) : (st.upd f).tr = st.tr := rfl

@[simp]
theorem St.upd_s (st : St) (f : t_session → t_session) : (st.upd f).s = f st.s := rfl

@[simp]
theorem ban_client_s (config : t_config) (st : St) (timer : Int) (message : String) :
    (ban_client config st timer message).s = st.s := by
  unfold ban_client
  split <;> rfl

theorem ban_client_tr (config : t_config) (st : St) (timer : Int) (message : String) :
    (ban_client config st timer message).tr =
      st.tr ++ (Event.ban_ip st.s.ip_address timer config.kick_on_ban :: Event.log_system message ::
        (if config.monitor_enabled then [Event.monitor_counter_ban] else [])) := by
  unfold ban_client
  split <;> simp [St.emit]

@[simp]
theorem ban_client_on_wire (config : t_config) (st : St) (timer : Int) (message : String) :
    (ban_client config st timer message).tr.filter on_wire = st.tr.filter on_wire := by
  rw [ban_client_tr]
  cases config.monitor_enabled <;> simp [on_wire]

/-! ## C1: finalizer with `data_sent` already set -/

/-- C1, counterexample: with `data_sent` already true, a result of -1 with
cause `ec_MAX_REQUESTSIZE` still calls `send_code` (with `return_code` 413). -/
theorem c1_send_code_although_data_sent :
    c1_state.s.data_sent = true ∧
    (handle_request_result sample_env sample_config c1_state (-1)).tr
      = [Event.log_system "Maximum request size reached", Event.send_code 413] := by
  decide

theorem adds_refl (P : Event → Prop) (st : St) : adds P st st :=
  ⟨[], by simp, by simp⟩

theorem adds_trans {P : Event → Prop} {a b c : St} (h1 : adds P a b) (h2 : adds P b c) :
    adds P a c := by
  obtain ⟨n1, e1, p1⟩ := h1
  obtain ⟨n2, e2, p2⟩ := h2
  refine ⟨n1 ++ n2, by rw [e2, e1, List.append_assoc], ?_⟩
  intro x hx
  rcases List.mem_append.mp hx with hx | hx
  · exact p1 x hx
  · exact p2 x hx

theorem adds_mono {P Q : Event → Prop} {a b : St} (hPQ : ∀ e, P e → Q e) (h : adds P a b) :
    adds Q a b := by
  obtain ⟨n, e, p⟩ := h
  exact ⟨n, e, fun x hx => hPQ x (p x hx)⟩

theorem adds_emit {P : Event → Prop} {st st1 : St} (h : adds P st st1) (e : Event)
    (he : P e) : adds P st (st1.emit e) :=
  adds_trans h ⟨[e], rfl, by simpa using he⟩

theorem adds_upd {P : Event → Prop} {st st1 : St} (h : adds P st st1)
    (f : t_session → t_session) : adds P st (st1.upd f) := h

theorem adds_call {P : Event → Prop} {st st1 : St} (h : adds P st st1) (env : Env) (f : ExtFn)
    (hf : P (Event.call f)) : adds P st (call env f st1).2 :=
  adds_trans h ⟨[Event.call f], rfl, by simpa using hf⟩

theorem adds_send_code {P : Event → Prop} {st st1 : St} (h : adds P st st1) (env : Env)
    (hf : P (Event.send_code st1.s.return_code)) : adds P st (send_code env st1).2 :=
  adds_trans h ⟨[Event.send_code st1.s.return_code], rfl, by simpa using hf⟩

theorem adds_send_header {P : Event → Prop} {st st1 : St} (h : adds P st st1) (env : Env)
    (hf : P (Event.send_header st1.s.return_code)) : adds P st (send_header env st1).2 :=
  adds_trans h ⟨[Event.send_header st1.s.return_code], rfl, by simpa using hf⟩

theorem adds_send_buffer {P : Event → Prop} {st st1 : St} (h : adds P st st1) (env : Env)
    (buffer : Option String) (size : Nat) (hf : P (Event.send_buffer buffer size)) :
    adds P st (send_buffer env st1 buffer size).2 :=
  adds_trans h ⟨[Event.send_buffer buffer size], rfl, by simpa using hf⟩

theorem adds_ban_client {P : Event → Prop} {st st1 : St} (h : adds P st st1) (config : t_config)
    (timer : Int) (message : String)
    (hban : P (Event.ban_ip st1.s.ip_address timer config.kick_on_ban))
    (hlog : P (Event.log_system message)) (hmon : P Event.monitor_counter_ban) :
    adds P st (ban_client config st1 timer message) := by
  unfold ban_client
  split
  · exact adds_emit (adds_emit (adds_emit h _ hban) _ hlog) _ hmon
  · exact adds_emit (adds_emit h _ hban) _ hlog

theorem only_logs_refl (st : St) : only_logs st st :=
  adds_refl _ st

theorem only_logs_emit {st st1 : St} (h : only_logs st st1) (e : Event)
    (he : on_wire e = false) : only_logs st (st1.emit e) :=
  adds_emit h e he

theorem only_logs_upd {st st1 : St} (h : only_logs st st1) (f : t_session → t_session) :
    only_logs st (st1.upd f) := h

theorem only_logs_ban {st st1 : St} (h : only_logs st st1) (config : t_config) (timer : Int)
    (message : String) : only_logs st (ban_client config st1 timer message) :=
  adds_ban_client h config timer message rfl rfl rfl

/-- C1, amended: with `data_sent` true on entry, `handle_request_result` adds
only log, monitor and ban events to the trace (no `send_code`, `send_header`,
`send_buffer` and no content handler), for every result other than -1 and for
-1 with every cause except `ec_MAX_REQUESTSIZE`, `ec_SQL_INJECTION`,
`ec_INVALID_URL` and `ec_TIMEOUT` on a first request. -/
theorem handle_request_result_data_sent (env : Env) (config : t_config) (st : St) (result : Int)
    (hsent : st.s.data_sent = true)
    (hcause : result = -1 →
      st.s.error_cause ≠ t_error_cause.ec_MAX_REQUESTSIZE ∧
      st.s.error_cause ≠ t_error_cause.ec_SQL_INJECTION ∧
      st.s.error_cause ≠ t_error_cause.ec_INVALID_URL ∧
      (st.s.error_cause = t_error_cause.ec_TIMEOUT → st.s.kept_alive ≠ 0)) :
    only_logs st (handle_request_result env config st result) := by
  have key : only_logs st (if result = -1 then handle_transport_error env config st
      else handle_status env config st result) := by
    by_cases hr : result = -1
    · obtain ⟨h1, h2, h3, h4⟩ := hcause hr
      rw [if_pos hr]
      unfold handle_transport_error
      cases hc : st.s.error_cause
      · simp only [send_bare_status, hsent]
        exact only_logs_refl st
      · exact absurd hc h1
      · simp only [if_neg (h4 hc)]
        exact only_logs_refl st
      · simp only []
        split
        · exact only_logs_emit (only_logs_refl st) _ rfl
        · exact only_logs_refl st
      · simp only []
        split
        · exact only_logs_emit (only_logs_refl st) _ rfl
        · exact only_logs_refl st
      · exact only_logs_emit (only_logs_refl st) _ rfl
      · exact only_logs_emit (only_logs_refl st) _ rfl
      · exact absurd hc h2
      · exact absurd hc h3
    · rw [if_neg hr]
      unfold handle_status
      have e1 : ∀ r, send_empty_reply env st r = st := by
        intro r; simp [send_empty_reply, hsent]
      have e2 : ∀ r, send_empty_reply env (st.upd (fun s => { s with keep_alive := false })) r
          = st.upd (fun s => { s with keep_alive := false }) := by
        intro r; simp [send_empty_reply, hsent]
      have e3 : ∀ (st1 : St) r c, st1.s.data_sent = true → send_bare_status env st1 r c = st1 := by
        intro st1 r c h; simp [send_bare_status, h]
      split
      · exact only_logs_refl st
      split
      · rw [e1]; exact only_logs_refl st
      split
      · rw [e2]; exact only_logs_upd (only_logs_refl st) _
      split
      · dsimp only
        rw [e3 _ _ _ (by simpa using hsent)]
        split
        · refine only_logs_ban (only_logs_emit (only_logs_refl st) _ ?_) _ _ _
          rfl
        · refine only_logs_emit (only_logs_refl st) _ ?_
          rfl
      split
      · simp only [hsent]
        exact only_logs_refl st
      split
      · rw [e3 _ _ _ (by simpa using hsent)]
        exact only_logs_upd (only_logs_refl st) _
      · rw [e3 _ _ _ hsent]
        exact only_logs_refl st
  unfold handle_request_result
  simp only []
  split
  · exact only_logs_emit key _ rfl
  · exact only_logs_upd key _

/-- C1, witness: a session that sent data and was then kicked only logs. -/
theorem handle_request_result_data_sent_witness :
    only_logs c1_kicked (handle_request_result sample_env sample_config c1_kicked (-1)) :=
  handle_request_result_data_sent sample_env sample_config c1_kicked (-1) (by decide)
    (by decide)

/-! ## What the finalizer adds to the trace -/

theorem may_ban_ok {env : Env} {config : t_config} {s : t_session} {timer : Int}
    (h : may_ban env config s timer = true) (kick : Bool) :
    ban_ok env config (Event.ban_ip s.ip_address timer kick) := by
  simpa [may_ban, ban_ok] using h

theorem adds_handle_error_log {P : Event → Prop} {st st1 : St} (h : adds P st st1)
    (handler : CStr) (result : Int) (hlog : ∀ m, P (Event.log_error m))
    (hfile : ∀ f m, P (Event.log_file_error f m)) :
    adds P st (handle_error_log st1 handler result) := by
  unfold handle_error_log
  split
  · exact adds_emit h _ (hlog _)
  split
  · exact adds_emit h _ (hlog _)
  split
  · exact adds_emit h _ (hlog _)
  split
  · exact adds_upd (adds_emit h _ (hfile _ _)) _
  split
  · exact adds_emit h _ (hfile _ _)
  · exact h

theorem adds_handle_error {P : Event → Prop} {st st1 : St} (h : adds P st st1) (env : Env)
    (config : t_config) (error_code : Int) (hcall : ∀ f, P (Event.call f))
    (hlog : ∀ m, P (Event.log_error m)) (hfile : ∀ f m, P (Event.log_file_error f m)) :
    adds P st (handle_error env config st1 error_code).2 := by
  unfold handle_error
  split
  · exact h
  · dsimp only
    split
    · exact adds_upd h _
    split
    · exact adds_call (adds_upd (adds_upd h _) _) env _ (hcall _)
    · apply adds_handle_error_log _ _ _ hlog hfile
      have h4 : ∀ f g k, adds P st ((call env ExtFn.get_target_extension
          ((st1.upd f).upd g)).2.upd k) := fun f g k =>
        adds_upd (adds_call (adds_upd (adds_upd h f) g) env _ (hcall _)) k
      split
      · exact adds_call (h4 _ _ _) env _ (hcall _)
      · have hx := fun f g k => adds_call (h4 f g k) env ExtFn.can_transform_with_xslt (hcall _)
        split
        · exact adds_call (hx _ _ _) env _ (hcall _)
        · split
          · exact hx _ _ _
          · exact hx _ _ _
          · exact adds_call (hx _ _ _) env _ (hcall _)
          · exact hx _ _ _
          · exact hx _ _ _

theorem adds_send_empty_reply {P : Event → Prop} {st st1 : St} (h : adds P st st1) (env : Env)
    (result : Int) (hhead : ∀ rc, P (Event.send_header rc))
    (hbuf : ∀ b n, P (Event.send_buffer b n)) :
    adds P st (send_empty_reply env st1 result) := by
  unfold send_empty_reply
  split
  · exact adds_send_buffer (adds_send_header (adds_upd h _) env (hhead _)) env _ _ (hbuf _ _)
  · exact h

theorem adds_send_bare_status {P : Event → Prop} {st st1 : St} (h : adds P st st1) (env : Env)
    (result : Int) (check : Bool) (hcode : ∀ rc, P (Event.send_code rc)) :
    adds P st (send_bare_status env st1 result check) := by
  unfold send_bare_status
  split
  · dsimp only
    split
    · exact adds_upd (adds_send_code (adds_upd h _) env (hcode _)) _
    · exact adds_send_code (adds_upd h _) env (hcode _)
  · exact h

/-- What `handle_status` adds to the trace: no `log_request`, and bans only
under the ban condition. -/
theorem adds_handle_status (env : Env) (config : t_config) (st : St) (result : Int) :
    adds (fun e => e ≠ Event.log_request ∧ ban_ok env config e) st
      (handle_status env config st result) := by
  have h0 := adds_refl (fun e => e ≠ Event.log_request ∧ ban_ok env config e) st
  unfold handle_status
  split
  · exact h0
  split
  · exact adds_send_empty_reply h0 env _ (by simp [ban_ok]) (by simp [ban_ok])
  split
  · exact adds_send_empty_reply (adds_upd h0 _) env _ (by simp [ban_ok]) (by simp [ban_ok])
  split
  · dsimp only
    have h2 := adds_send_bare_status (adds_emit h0 Event.log_garbage (by simp [ban_ok])) env
      400 true (by simp [ban_ok])
    split
    · rename_i hb
      exact adds_ban_client h2 config _ _ ⟨by simp, may_ban_ok hb _⟩ (by simp [ban_ok])
        (by simp [ban_ok])
    · exact h2
  split
  · split
    · dsimp only
      have h1 := adds_handle_error h0 env config result (by simp [ban_ok]) (by simp [ban_ok])
        (by simp [ban_ok])
      split
      · exact adds_upd h1 _
      split
      · exact h1
      · exact adds_send_bare_status h1 env _ _ (by simp [ban_ok])
    · exact h0
  split
  · exact adds_send_bare_status (adds_upd h0 _) env _ _ (by simp [ban_ok])
  · exact adds_send_bare_status h0 env _ _ (by simp [ban_ok])

theorem adds_count_eq {a : Event} {st st1 : St} (h : adds (fun e => e ≠ a) st st1) :
    st1.tr.count a = st.tr.count a := by
  obtain ⟨new, e1, p1⟩ := h
  have hz : new.count a = 0 := List.count_eq_zero_of_not_mem (fun hmem => p1 a hmem rfl)
  rw [e1, List.count_append, hz, Nat.add_zero]

/-! ## C2: access log or end of keep-alive -/

/-- C2: after `handle_request_result`, a result that is positive and not 400
has had `log_request` called exactly once, and for every other result
`keep_alive` is false. -/
theorem handle_request_result_logs_or_closes (env : Env) (config : t_config) (st : St)
    (result : Int) :
    (result > 0 ∧ result ≠ 400 →
      (handle_request_result env config st result).tr.count Event.log_request
        = st.tr.count Event.log_request + 1) ∧
    (¬ (result > 0 ∧ result ≠ 400) →
      (handle_request_result env config st result).s.keep_alive = false) := by
  constructor
  · intro hres
    have hne : result ≠ -1 := by omega
    have hst := adds_count_eq (adds_mono (fun e he => he.1) (adds_handle_status env config st result))
    unfold handle_request_result
    simp only [if_neg hne, if_pos hres, St.emit_tr, List.count_append, hst]
    simp
  · intro hres
    unfold handle_request_result
    simp only [if_neg hres, St.upd_s]

/-! ## C3: fallback after the error handler -/

/-- C3, counterexample: the host has a handler for 404, `send_file` of the
handler page fails with -1 and no data has been sent; `handle_error` returns
-1 and `handle_request_result` calls no `send_code` at all. -/
theorem c3_no_fallback_after_minus_one :
    c3_state.s.data_sent = false ∧
    (handle_error c3_env sample_config c3_state 404).1 = -1 ∧
    (handle_error c3_env sample_config c3_state 404).2.s.data_sent = false ∧
    (handle_request_result c3_env sample_config c3_state 404).tr
      = [Event.call ExtFn.get_target_extension, Event.call ExtFn.can_transform_with_xslt,
         Event.call ExtFn.send_file, Event.log_request] ∧
    (handle_request_result c3_env sample_config c3_state 404).s.keep_alive = false := by
  decide

/-- C3, amended: for a result in 401, 403, 404, 501, 503 with `data_sent`
false on entry, when `handle_error` returns neither 200 nor -1 and no data has
been sent, `handle_request_result` sets `return_code` to the result and calls
`send_code`; when `handle_error` returns -1 it sends no status and clears
`keep_alive`. -/
theorem handle_request_result_error_fallback (env : Env) (config : t_config) (st : St)
    (result : Int)
    (hres : result = 401 ∨ result = 403 ∨ result = 404 ∨ result = 501 ∨ result = 503)
    (hds : st.s.data_sent = false) :
    ((handle_error env config st result).1 ≠ 200 →
      (handle_error env config st result).1 ≠ -1 →
      (handle_error env config st result).2.s.data_sent = false →
      (handle_request_result env config st result).tr
        = (handle_error env config st result).2.tr
            ++ [Event.send_code result, Event.log_request]) ∧
    ((handle_error env config st result).1 = -1 →
      (handle_request_result env config st result).tr
        = (handle_error env config st result).2.tr ++ [Event.log_request] ∧
      (handle_request_result env config st result).s.keep_alive = false) := by
  have h1 : result ≠ -1 := by omega
  have h2 : result ≠ 200 := by omega
  have h3 : ¬ (result = 201 ∨ result = 204 ∨ result = 304 ∨ result = 412) := by omega
  have h4 : ¬ (result = 411 ∨ result = 413) := by omega
  have h5 : result ≠ 400 := by omega
  have h6 : result > 0 ∧ result ≠ 400 := by omega
  have hs : handle_status env config st result =
      if (handle_error env config st result).1 = -1 then
        (handle_error env config st result).2.upd (fun s => { s with keep_alive := false })
      else if (handle_error env config st result).1 = 200 then (handle_error env config st result).2
      else send_bare_status env (handle_error env config st result).2 result true := by
    unfold handle_status
    simp only [if_neg h2, if_neg h3, if_neg h4, if_neg h5, if_pos hres, hds, if_true]
  unfold handle_request_result
  simp only [if_neg h1, if_pos h6, hs, St.emit_tr, St.emit_s]
  constructor
  · intro n200 nm1 hsent
    simp only [if_neg nm1, if_neg n200, send_bare_status, hsent, if_true]
    split <;> simp [send_code]
  · intro hm1
    simp only [if_pos hm1, St.upd_tr, St.upd_s, and_self]

/-- C3, witness: without a registered handler `handle_error` returns 0 and
the bare 404 is sent. -/
theorem handle_request_result_error_fallback_witness :
    (handle_request_result sample_env sample_config { s := sample_session, tr := [] } 404).tr
      = (handle_error sample_env sample_config { s := sample_session, tr := [] } 404).2.tr
          ++ [Event.send_code 404, Event.log_request] :=
  (handle_request_result_error_fallback sample_env sample_config
    { s := sample_session, tr := [] } 404 (by decide) (by decide)).1
    (by decide) (by decide) (by decide)

/-! ## Stage sequencing -/

theorem Stage.next_none {a : Stage} (h : a.1 = none) (f : St → Stage) : a.next f = f a.2 := by
  unfold Stage.next
  rw [h]

theorem Stage.next_some {a : Stage} {r : Int} (h : a.1 = some r) (f : St → Stage) :
    a.next f = (some r, a.2) := by
  unfold Stage.next
  rw [h]

@[simp]
theorem Stage.next_pair_none (st : St) (f : St → Stage) :
    Stage.next (none, st) f = f st := rfl

@[simp]
theorem Stage.next_pair_some (r : Int) (st : St) (f : St → Stage) :
    Stage.next (some r, st) f = (some r, st) := rfl

theorem stage_hide_proxy_falls_through (env : Env) (config : t_config) (st : St) :
    (stage_hide_proxy env config st).1 = none := by
  unfold stage_hide_proxy
  dsimp only
  repeat' split
  all_goals rfl

theorem stage_find_host_falls_through (env : Env) (config : t_config) (binding : t_binding)
    (st : St) : (stage_find_host env config binding st).1 = none := rfl

/-! ## C4: forced SSL redirect -/

/-- C4: when `fetch_request` and `parse_request` both return 200, the resolved
host requires SSL and the binding is plain text, `serve_client` returns 301
with `cause_of_301 = require_ssl`; the state it leaves is the state at host
resolution with the query split off the URI, so the trace has no event after
host resolution: no ban, no body match, no reverse proxy, toolkit, access
control or content handler. -/
theorem serve_client_require_ssl (env : Env) (config : t_config) (binding : t_binding) (st : St)
    (hfetch : (stage_fetch_parse env st).1 = none)
    (hssl : (serve_client_resolve env config binding st).2.s.host.require_ssl = true)
    (hplain : binding.use_ssl = false) :
    serve_client env config binding st =
      (301, ((serve_client_resolve env config binding st).2.upd (fun s => split_query s true)).upd
        (fun s => { s with cause_of_301 := t_cause_of_301.require_ssl })) ∧
    (serve_client env config binding st).2.s.cause_of_301 = t_cause_of_301.require_ssl ∧
    (serve_client env config binding st).2.tr = (serve_client_resolve env config binding st).2.tr := by
  have hres : (serve_client_resolve env config binding st).1 = none := by
    unfold serve_client_resolve
    rw [Stage.next_none hfetch, Stage.next_none (stage_hide_proxy_falls_through _ _ _)]
    exact stage_find_host_falls_through _ _ _ _
  have hauth : stage_ssl_client_auth env binding (serve_client_resolve env config binding st).2
      = (none, (serve_client_resolve env config binding st).2) := by
    simp [stage_ssl_client_auth, hplain]
  have hreq : stage_require_ssl binding (serve_client_resolve env config binding st).2
      = (some 301, ((serve_client_resolve env config binding st).2.upd
          (fun s => split_query s true)).upd
          (fun s => { s with cause_of_301 := t_cause_of_301.require_ssl })) := by
    simp [stage_require_ssl, hplain, hssl]
  have hhead : serve_client_head env config binding st
      = (some 301, ((serve_client_resolve env config binding st).2.upd
          (fun s => split_query s true)).upd
          (fun s => { s with cause_of_301 := t_cause_of_301.require_ssl })) := by
    unfold serve_client_head
    rw [Stage.next_none hres, hauth, Stage.next_pair_none, hreq, Stage.next_pair_some,
      Stage.next_pair_some]
  have hall : serve_client env config binding st
      = (301, ((serve_client_resolve env config binding st).2.upd
          (fun s => split_query s true)).upd
          (fun s => { s with cause_of_301 := t_cause_of_301.require_ssl })) := by
    unfold serve_client serve_client_stages serve_client_gate
    rw [hhead, Stage.next_pair_some, Stage.next_pair_some]
    rfl
  refine ⟨hall, ?_, ?_⟩
  · rw [hall]
    rfl
  · rw [hall]
    rfl

/-- C4, witness: `GET /x?y=1` over plain text for a host that requires SSL
gives 301, cause `require_ssl`, the query split off, and a trace that holds
only the calls of `fetch_request` and `parse_request`. -/
theorem serve_client_require_ssl_witness :
    (serve_client sample_env sample_config sample_binding c4_state).1 = 301 ∧
    (serve_client sample_env sample_config sample_binding c4_state).2.s.cause_of_301
      = t_cause_of_301.require_ssl ∧
    (serve_client sample_env sample_config sample_binding c4_state).2.s.vars
      = some "y=1".toList ∧
    (serve_client sample_env sample_config sample_binding c4_state).2.tr
      = [Event.call ExtFn.fetch_request, Event.call (ExtFn.parse_request 0)] := by
  have h := serve_client_require_ssl sample_env sample_config sample_binding c4_state
    (by decide) (by decide) (by decide)
  refine ⟨?_, h.2.1, ?_, ?_⟩
  · rw [h.1]
  · rw [h.1]
    decide
  · rw [h.2.2]
    decide

/-! ## Bans in `serve_client` -/

@[simp]
theorem call_tr (env : Env) (f : ExtFn) (st : St) :
    (call env f st).2.tr = st.tr ++ [Event.call f] := rfl

@[simp]
theorem send_code_tr (env : Env) (st : St) :
    (send_code env st).2.tr = st.tr ++ [Event.send_code st.s.return_code] := rfl

@[simp]
theorem send_header_tr (env : Env) (st : St) :
    (send_header env st).2.tr = st.tr ++ [Event.send_header st.s.return_code] := rfl

@[simp]
theorem send_buffer_tr (env : Env) (st : St) (buffer : Option String) (size : Nat) :
    (send_buffer env st buffer size).2.tr = st.tr ++ [Event.send_buffer buffer size] := rfl

theorem adds_iff (P : Event → Prop) (st st1 : St) :
    adds P st st1 ↔ ∃ new : List Event, st1.tr = st.tr ++ new ∧ ∀ e ∈ new, P e := Iff.rfl

theorem adds_stage_fetch_parse {P : Event → Prop} (env : Env) (st : St)
    (hcall : ∀ f, P (Event.call f)) : adds P st (stage_fetch_parse env st).2 := by
  unfold stage_fetch_parse
  dsimp only
  repeat' split
  all_goals simp [adds_iff, hcall]

theorem no_bans_iff (st st1 : St) :
    no_bans st st1 ↔ ∃ new : List Event, st1.tr = st.tr ++ new ∧ ∀ e ∈ new, is_ban e = false :=
  Iff.rfl

theorem no_bans_trans {a b c : St} (h1 : no_bans a b) (h2 : no_bans b c) : no_bans a c :=
  adds_trans h1 h2

theorem no_bans_next {st : St} {a : Stage} {f : St → Stage} (ha : no_bans st a.2)
    (hf : ∀ st1, no_bans st1 (f st1).2) : no_bans st (a.next f).2 := by
  unfold Stage.next
  split
  · exact ha
  · exact no_bans_trans ha (hf _)

theorem no_bans_stage_fetch_parse (env : Env) (st : St) :
    no_bans st (stage_fetch_parse env st).2 :=
  adds_stage_fetch_parse env st (fun _ => rfl)

theorem no_bans_stage_hide_proxy (env : Env) (config : t_config) (st : St) :
    no_bans st (stage_hide_proxy env config st).2 := by
  unfold stage_hide_proxy
  dsimp only
  repeat' split
  all_goals simp [no_bans_iff, is_ban]

theorem no_bans_stage_find_host (env : Env) (config : t_config) (binding : t_binding) (st : St) :
    no_bans st (stage_find_host env config binding st).2 := by
  unfold stage_find_host
  dsimp only
  repeat' split
  all_goals simp [no_bans_iff, is_ban]

theorem no_bans_stage_ssl_client_auth (env : Env) (binding : t_binding) (st : St) :
    no_bans st (stage_ssl_client_auth env binding st).2 := by
  unfold stage_ssl_client_auth
  repeat' split
  all_goals simp [no_bans_iff, is_ban]

theorem no_bans_stage_require_ssl (binding : t_binding) (st : St) :
    no_bans st (stage_require_ssl binding st).2 := by
  unfold stage_require_ssl
  repeat' split
  all_goals simp [no_bans_iff, is_ban]

theorem no_bans_access_control (env : Env) (st : St) :
    no_bans st (access_control env st).2 := by
  unfold access_control
  dsimp only
  repeat' split
  all_goals simp [no_bans_iff, is_ban]

theorem no_bans_secure_url_check (env : Env) (st : St) :
    no_bans st (secure_url_check env st).2 := by
  unfold secure_url_check
  repeat' split
  all_goals simp [no_bans_iff, is_ban]

theorem no_bans_resolve_path (env : Env) (st : St) :
    no_bans st (resolve_path env st).2 := by
  unfold resolve_path
  dsimp only
  repeat' split
  all_goals simp [no_bans_iff, is_ban]

theorem no_bans_prevent_attacks (env : Env) (st : St) :
    no_bans st (prevent_attacks env st).2 := by
  unfold prevent_attacks
  dsimp only
  repeat' split
  all_goals simp [no_bans_iff, is_ban]

theorem no_bans_rproxy_block (env : Env) (st : St) (rproxy : t_rproxy) :
    no_bans st (rproxy_block env st rproxy).2 := by
  unfold rproxy_block
  dsimp only
  split
  · simp [no_bans_iff]
  split
  · simp [no_bans_iff, is_ban]
  · have h0 : no_bans st (call env ExtFn.validate_url (st.upd (fun s => split_query s false))).2 := by
      simp [no_bans_iff, is_ban]
    refine no_bans_trans h0 ?_
    refine no_bans_next (no_bans_next (no_bans_next (no_bans_next (no_bans_secure_url_check _ _)
      (no_bans_resolve_path env)) (no_bans_access_control env)) (no_bans_prevent_attacks env)) ?_
    intro st1
    simp [no_bans_iff, is_ban]

theorem no_bans_stage_rproxy (env : Env) (st : St) : no_bans st (stage_rproxy env st).2 := by
  unfold stage_rproxy
  split
  · exact no_bans_rproxy_block _ _ _
  · simp [no_bans_iff]

theorem no_bans_stage_method (env : Env) (binding : t_binding) (st : St) :
    no_bans st (stage_method env binding st).2 := by
  unfold stage_method
  dsimp only
  repeat' split
  all_goals simp [no_bans_iff, is_ban]

theorem no_bans_stage_resolve (env : Env) (st : St) : no_bans st (stage_resolve env st).2 := by
  unfold stage_resolve
  dsimp only
  refine no_bans_next (no_bans_secure_url_check _ _) ?_
  intro st1
  dsimp only
  repeat' split
  all_goals simp [no_bans_iff, is_ban]

theorem no_bans_stage_target_kind (env : Env) (st : St) :
    no_bans st (stage_target_kind env st).2 := by
  unfold stage_target_kind
  dsimp only
  repeat' split
  all_goals simp [no_bans_iff, is_ban]

theorem no_bans_stage_start_file (st : St) : no_bans st (stage_start_file st).2 := by
  unfold stage_start_file
  repeat' split
  all_goals simp [no_bans_iff, is_ban]

theorem no_bans_stage_classify (env : Env) (config : t_config) (st : St) :
    no_bans st (stage_classify env config st).2 := by
  unfold stage_classify
  dsimp only
  repeat' split
  all_goals simp [no_bans_iff, is_ban]

theorem no_bans_run_program (env : Env) (config : t_config) (st : St) (program : CStr)
    (return_code : Int) : no_bans st (run_program env config st program return_code).2 := by
  unfold run_program
  dsimp only
  repeat' split
  all_goals simp [no_bans_iff, is_ban]

theorem no_bans_dispatch_get_content (env : Env) (st : St) :
    no_bans st (dispatch_get_content env st).2 := by
  unfold dispatch_get_content
  dsimp only
  repeat' split
  all_goals simp [no_bans_iff, is_ban]

theorem no_bans_dispatch_get_index (env : Env) (config : t_config) (r : Int × St) :
    no_bans r.2 (dispatch_get_index env config r).2 := by
  unfold dispatch_get_index
  repeat' split
  all_goals simp [no_bans_iff, is_ban]

theorem no_bans_dispatch_get_hook (env : Env) (config : t_config) (r : Int × St) :
    no_bans r.2 (dispatch_get_hook env config r).2 := by
  unfold dispatch_get_hook
  repeat' split
  all_goals first
    | exact no_bans_run_program _ _ _ _ _
    | simp [no_bans_iff, is_ban]

theorem no_bans_dispatch_get (env : Env) (config : t_config) (st : St) :
    no_bans st (dispatch_get env config st).2 :=
  no_bans_trans (no_bans_dispatch_get_content env st)
    (no_bans_trans (no_bans_dispatch_get_index env config _)
      (no_bans_dispatch_get_hook env config _))

theorem no_bans_dispatch_post (env : Env) (st : St) :
    no_bans st (dispatch_post env st).2 := by
  unfold dispatch_post
  dsimp only
  repeat' split
  all_goals simp [no_bans_iff, is_ban]

theorem no_bans_dispatch_put (env : Env) (config : t_config) (st : St) :
    no_bans st (dispatch_put env config st).2 := by
  have h0 : no_bans st (call env ExtFn.handle_put_request st).2 := by
    simp [no_bans_iff, is_ban]
  unfold dispatch_put
  dsimp only
  repeat' split
  all_goals first
    | exact no_bans_trans h0 (no_bans_run_program _ _ _ _ _)
    | exact h0

theorem no_bans_dispatch_delete (env : Env) (config : t_config) (st : St) :
    no_bans st (dispatch_delete env config st).2 := by
  have h0 : no_bans st (call env ExtFn.handle_delete_request st).2 := by
    simp [no_bans_iff, is_ban]
  unfold dispatch_delete
  dsimp only
  repeat' split
  all_goals first
    | exact no_bans_trans h0 (no_bans_run_program _ _ _ _ _)
    | exact h0

theorem no_bans_stage_dispatch (env : Env) (config : t_config) (st : St) :
    no_bans st (stage_dispatch env config st).2 := by
  unfold stage_dispatch
  split
  · exact no_bans_dispatch_get _ _ _
  · exact no_bans_dispatch_get _ _ _
  · exact no_bans_dispatch_post _ _
  · exact no_bans_dispatch_post _ _
  · exact no_bans_dispatch_put _ _ _
  · exact no_bans_dispatch_delete _ _ _
  · simp [no_bans_iff]

theorem stage_bans_of_no_bans {env : Env} {config : t_config} {st : St} {a : Stage}
    (h : no_bans st a.2) : stage_bans env config st a := by
  obtain ⟨new, h1, h2⟩ := h
  refine ⟨new, h1, ?_, Or.inl ?_⟩
  · intro e he
    have := h2 e he
    cases e <;> simp_all [ban_ok, is_ban]
  · rw [List.countP_eq_zero]
    intro e he
    simp [h2 e he]

theorem stage_bans_next {env : Env} {config : t_config} {st : St} {a : Stage} {f : St → Stage}
    (ha : stage_bans env config st a) (hf : ∀ st1, stage_bans env config st1 (f st1)) :
    stage_bans env config st (a.next f) := by
  unfold Stage.next
  split
  · rename_i r hr
    obtain ⟨new, h1, h2, h3⟩ := ha
    refine ⟨new, h1, h2, ?_⟩
    rcases h3 with h3 | h3
    · exact Or.inl h3
    · exact Or.inr ⟨h3.1, by rw [← h3.2, hr]⟩
  · rename_i hr
    obtain ⟨new, h1, h2, h3⟩ := ha
    obtain ⟨new2, g1, g2, g3⟩ := hf a.2
    have hzero : new.countP is_ban = 0 := by
      rcases h3 with h3 | h3
      · exact h3
      · rw [hr] at h3
        exact absurd h3.2 (by simp)
    refine ⟨new ++ new2, by rw [g1, h1, List.append_assoc], ?_, ?_⟩
    · intro e he
      rcases List.mem_append.mp he with he | he
      · exact h2 e he
      · exact g2 e he
    · rw [List.countP_append, hzero, Nat.zero_add]
      exact g3

theorem stage_bans_deny_body_loop (env : Env) (config : t_config) (chr : Char) (st : St)
    (patterns : List t_pattern) :
    stage_bans env config st (deny_body_loop env config chr st patterns) := by
  induction patterns with
  | nil => exact ⟨[], by simp [deny_body_loop], by simp, Or.inl rfl⟩
  | cons pattern rest ih =>
    unfold deny_body_loop
    split
    · unfold ban_client
      dsimp only
      repeat' split
      all_goals simp_all [stage_bans, may_ban, ban_ok, is_ban, List.countP_cons]
    · exact ih

theorem stage_bans_stage_deny_body (env : Env) (config : t_config) (st : St) :
    stage_bans env config st (stage_deny_body env config st) := by
  unfold stage_deny_body
  split
  · exact stage_bans_of_no_bans (by simp [no_bans_iff])
  · dsimp only
    refine stage_bans_next (stage_bans_deny_body_loop env config _ _ _) ?_
    intro st1
    exact stage_bans_of_no_bans (by simp [no_bans_iff])

theorem stage_bans_toolkit_rule (env : Env) (config : t_config) (st : St)
    (options : t_toolkit_options) (rule : CStr) :
    stage_bans env config st (toolkit_rule env config st options rule).1 := by
  unfold toolkit_rule
  dsimp only
  split
  · exact stage_bans_of_no_bans (by simp [no_bans_iff])
  split
  · unfold ban_client
    split
    all_goals simp_all [stage_bans, may_ban, ban_ok, is_ban, List.countP_cons]
  · apply stage_bans_of_no_bans
    apply no_bans_next
    · repeat' split
      all_goals simp [no_bans_iff, is_ban]
    · intro st1
      repeat' split
      all_goals simp [no_bans_iff, is_ban]

theorem stage_bans_toolkit_loop (env : Env) (config : t_config) (rules : List CStr) :
    ∀ (st : St) (options : t_toolkit_options),
      stage_bans env config st (toolkit_loop env config st options rules) := by
  induction rules with
  | nil =>
    intro st options
    exact stage_bans_of_no_bans (by simp [toolkit_loop, no_bans_iff])
  | cons rule rest ih =>
    intro st options
    have h := stage_bans_next (f := fun st1 =>
      toolkit_loop env config st1 (toolkit_rule env config st options rule).2 rest)
      (stage_bans_toolkit_rule env config st options rule) (fun st1 => ih st1 _)
    unfold Stage.next at h
    unfold toolkit_loop
    exact h

theorem stage_bans_stage_toolkit (env : Env) (config : t_config) (binding : t_binding) (st : St) :
    stage_bans env config st (stage_toolkit env config binding st) := by
  unfold stage_toolkit
  dsimp only
  split
  · exact stage_bans_toolkit_loop _ _ _ _ _
  · exact stage_bans_of_no_bans (by simp [no_bans_iff])

/-- Bans of `serve_client`: every `ban_ip` it calls is in order, and it calls
none, or exactly one and then returns 403. -/
theorem stage_bans_serve_client_stages (env : Env) (config : t_config) (binding : t_binding)
    (st : St) : stage_bans env config st (serve_client_stages env config binding st) := by
  unfold serve_client_stages serve_client_gate serve_client_head serve_client_resolve
    serve_client_tail
  refine stage_bans_next (stage_bans_next (stage_bans_next (stage_bans_next (stage_bans_next
    (stage_bans_next (stage_bans_next (stage_bans_next ?_ ?_) ?_) ?_) ?_) ?_) ?_) ?_) ?_
  · exact stage_bans_of_no_bans (no_bans_stage_fetch_parse env st)
  · exact fun st1 => stage_bans_of_no_bans (no_bans_stage_hide_proxy env config st1)
  · exact fun st1 => stage_bans_of_no_bans (no_bans_stage_find_host env config binding st1)
  · exact fun st1 => stage_bans_of_no_bans (no_bans_stage_ssl_client_auth env binding st1)
  · exact fun st1 => stage_bans_of_no_bans (no_bans_stage_require_ssl binding st1)
  · exact fun st1 => stage_bans_stage_deny_body env config st1
  · exact fun st1 => stage_bans_of_no_bans (no_bans_stage_rproxy env st1)
  · exact fun st1 => stage_bans_of_no_bans (no_bans_stage_method env binding st1)
  · intro st1
    refine stage_bans_next (stage_bans_next (stage_bans_next (stage_bans_next (stage_bans_next
      (stage_bans_next ?_ ?_) ?_) ?_) ?_) ?_) ?_
    · exact stage_bans_stage_toolkit env config binding st1
    · exact fun st2 => stage_bans_of_no_bans (no_bans_stage_resolve env st2)
    · exact fun st2 => stage_bans_of_no_bans (no_bans_access_control env st2)
    · exact fun st2 => stage_bans_of_no_bans (no_bans_stage_target_kind env st2)
    · exact fun st2 => stage_bans_of_no_bans (no_bans_stage_start_file st2)
    · exact fun st2 => stage_bans_of_no_bans (no_bans_stage_classify env config st2)
    · exact fun st2 => stage_bans_of_no_bans (no_bans_stage_dispatch env config st2)

/-! ## Bans in the finalizer, the timeout handler and the flood check -/

theorem ban_ok_of_not_ban (env : Env) (config : t_config) (e : Event) (h : is_ban e = false) :
    ban_ok env config e := by
  cases e <;> simp_all [ban_ok, is_ban]

theorem no_bans_handle_error (env : Env) (config : t_config) (st : St) (error_code : Int) :
    no_bans st (handle_error env config st error_code).2 :=
  adds_handle_error (adds_refl _ st) env config error_code (fun _ => rfl) (fun _ => rfl)
    (fun _ _ => rfl)

theorem no_bans_count {new : List Event}
    (hp : ∀ e ∈ new, is_ban e = false) : new.countP is_ban = 0 := by
  rw [List.countP_eq_zero]
  intro e he
  simp [hp e he]

theorem at_most_one_ban_of_no_bans {env : Env} {config : t_config} {st st1 : St}
    (h : no_bans st st1) : at_most_one_ban env config st st1 := by
  obtain ⟨new, h1, h2⟩ := h
  refine ⟨new, h1, fun e he => ban_ok_of_not_ban env config e (h2 e he), ?_⟩
  rw [no_bans_count h2]
  exact Nat.zero_le 1

theorem at_most_one_ban_then_no_bans {env : Env} {config : t_config} {st a b : St}
    (h : at_most_one_ban env config st a) (hb : no_bans a b) :
    at_most_one_ban env config st b := by
  obtain ⟨new, h1, h2, h3⟩ := h
  obtain ⟨new2, g1, g2⟩ := hb
  refine ⟨new ++ new2, by rw [g1, h1, List.append_assoc], ?_, ?_⟩
  · intro e he
    rcases List.mem_append.mp he with he | he
    · exact h2 e he
    · exact ban_ok_of_not_ban env config e (g2 e he)
  · rw [List.countP_append, no_bans_count g2]
    exact h3

theorem at_most_one_ban_ban_client {env : Env} {config : t_config} {st st1 : St}
    (h : no_bans st st1) (timer : Int) (message : String)
    (hb : may_ban env config st1.s timer = true) :
    at_most_one_ban env config st (ban_client config st1 timer message) := by
  obtain ⟨new, h1, h2⟩ := h
  have hz := no_bans_count h2
  have hok := may_ban_ok hb config.kick_on_ban
  refine ⟨new ++ (Event.ban_ip st1.s.ip_address timer config.kick_on_ban ::
    Event.log_system message ::
    (if config.monitor_enabled then [Event.monitor_counter_ban] else [])), ?_, ?_, ?_⟩
  · rw [ban_client_tr, h1, List.append_assoc]
  · intro e he
    rcases List.mem_append.mp he with he | he
    · exact ban_ok_of_not_ban env config e (h2 e he)
    · cases hm : config.monitor_enabled <;> simp [hm] at he
      · rcases he with he | he
        · subst he; exact hok
        · subst he; trivial
      · rcases he with he | he | he
        · subst he; exact hok
        · subst he; trivial
        · subst he; trivial
  · rw [List.countP_append, hz]
    cases config.monitor_enabled <;> simp [List.countP_cons, is_ban]

theorem at_most_one_ban_may_ban {env : Env} {config : t_config} {st st1 : St}
    (h : no_bans st st1) (timer : Int) (message : String) :
    at_most_one_ban env config st
      (if may_ban env config st1.s timer = true then ban_client config st1 timer message
       else st1) := by
  split
  · rename_i hb
    exact at_most_one_ban_ban_client h timer message hb
  · exact at_most_one_ban_of_no_bans h

theorem no_bans_refl (st : St) : no_bans st st := adds_refl _ st

theorem no_bans_emit {st st1 : St} (h : no_bans st st1) (e : Event) (he : is_ban e = false) :
    no_bans st (st1.emit e) := adds_emit h e he

theorem no_bans_upd {st st1 : St} (h : no_bans st st1) (f : t_session → t_session) :
    no_bans st (st1.upd f) := h

theorem no_bans_send_code {st st1 : St} (h : no_bans st st1) (env : Env) :
    no_bans st (send_code env st1).2 := adds_send_code h env rfl

theorem no_bans_send_empty_reply {st st1 : St} (h : no_bans st st1) (env : Env) (result : Int) :
    no_bans st (send_empty_reply env st1 result) :=
  adds_send_empty_reply h env result (fun _ => rfl) (fun _ _ => rfl)

theorem no_bans_send_bare_status {st st1 : St} (h : no_bans st st1) (env : Env) (result : Int)
    (check : Bool) : no_bans st (send_bare_status env st1 result check) :=
  adds_send_bare_status h env result check (fun _ => rfl)

theorem no_bans_handle_status (env : Env) (config : t_config) (st : St) (result : Int)
    (h400 : result ≠ 400) : no_bans st (handle_status env config st result) := by
  have h0 : no_bans st st := no_bans_refl st
  unfold handle_status
  rw [if_neg h400]
  split
  · exact h0
  split
  · exact no_bans_send_empty_reply h0 env _
  split
  · exact no_bans_send_empty_reply (no_bans_upd h0 _) env _
  split
  · split
    · dsimp only
      have h1 := no_bans_handle_error env config st result
      split
      · exact no_bans_upd h1 _
      split
      · exact h1
      · exact no_bans_send_bare_status h1 env _ _
    · exact h0
  split
  · exact no_bans_send_bare_status (no_bans_upd h0 _) env _ _
  · exact no_bans_send_bare_status h0 env _ _

theorem at_most_one_ban_handle_status (env : Env) (config : t_config) (st : St) (result : Int) :
    at_most_one_ban env config st (handle_status env config st result) := by
  by_cases h400 : result = 400
  · subst h400
    have h2 : no_bans st (send_bare_status env (st.emit Event.log_garbage) 400 true) :=
      no_bans_send_bare_status (no_bans_emit (no_bans_refl st) Event.log_garbage rfl) env 400 true
    have h3 := @at_most_one_ban_may_ban env config _ _ h2 config.ban_on_garbage
      "Client banned because of sending garbage"
    unfold handle_status
    simpa using h3
  · exact at_most_one_ban_of_no_bans (no_bans_handle_status env config st result h400)

theorem at_most_one_ban_handle_timeout (env : Env) (config : t_config) {st st1 : St}
    (h : no_bans st st1) : at_most_one_ban env config st (handle_timeout env config st1) := by
  unfold handle_timeout
  split
  · rename_i hb
    exact at_most_one_ban_ban_client h _ _ hb
  · exact at_most_one_ban_of_no_bans (no_bans_emit h _ (by rfl))

theorem at_most_one_ban_handle_transport_error (env : Env) (config : t_config) (st : St) :
    at_most_one_ban env config st (handle_transport_error env config st) := by
  have h0 : no_bans st st := no_bans_refl st
  unfold handle_transport_error
  split
  · dsimp only
    exact at_most_one_ban_may_ban
      (no_bans_send_code (no_bans_upd (no_bans_emit h0 _ (by rfl)) _) env) _ _
  · split
    · dsimp only
      exact at_most_one_ban_handle_timeout env config (no_bans_send_code (no_bans_upd h0 _) env)
    · exact at_most_one_ban_of_no_bans h0
  · split
    · exact at_most_one_ban_of_no_bans (no_bans_emit h0 _ (by rfl))
    · exact at_most_one_ban_of_no_bans h0
  · split
    · exact at_most_one_ban_of_no_bans (no_bans_emit h0 _ (by rfl))
    · exact at_most_one_ban_of_no_bans h0
  · exact at_most_one_ban_of_no_bans (no_bans_emit h0 _ (by rfl))
  · exact at_most_one_ban_of_no_bans (no_bans_emit h0 _ (by rfl))
  · dsimp only
    refine at_most_one_ban_then_no_bans (at_most_one_ban_may_ban h0 config.ban_on_sqli
      ("Client banned because of SQL injection on " ++ String.mk (st.s.hostname.getD unknown_host)))
      ?_
    exact no_bans_emit (no_bans_send_code (no_bans_upd (no_bans_refl _) _) env) _ (by rfl)
  · dsimp only
    refine at_most_one_ban_then_no_bans (at_most_one_ban_may_ban h0 config.ban_on_invalid_url
      ("Client banned because of invalid URL on " ++ String.mk (st.s.hostname.getD unknown_host)))
      ?_
    exact no_bans_send_code (no_bans_refl _) env
  · exact at_most_one_ban_of_no_bans (no_bans_send_bare_status h0 env _ _)

theorem at_most_one_ban_handle_request_result (env : Env) (config : t_config) (st : St)
    (result : Int) :
    at_most_one_ban env config st (handle_request_result env config st result) := by
  have key : at_most_one_ban env config st
      (if result = -1 then handle_transport_error env config st
       else handle_status env config st result) := by
    split
    · exact at_most_one_ban_handle_transport_error env config st
    · exact at_most_one_ban_handle_status env config st result
  obtain ⟨new, h1, h2, h3⟩ := key
  unfold handle_request_result
  dsimp only
  split
  · refine ⟨new ++ [Event.log_request], by simp [h1], ?_, ?_⟩
    · intro e he
      rcases List.mem_append.mp he with he | he
      · exact h2 e he
      · simp at he
        subst he
        trivial
    · simpa [List.countP_append, is_ban] using h3
  · exact ⟨new, h1, h2, h3⟩

theorem no_bans_handle_request_result_403 (env : Env) (config : t_config) (st : St) :
    no_bans st (handle_request_result env config st 403) := by
  have h := no_bans_handle_status env config st 403 (by decide)
  unfold handle_request_result
  simp only [show ¬ ((403 : Int) = -1) by decide, if_false]
  split
  · exact no_bans_emit h _ (by rfl)
  · exact no_bans_upd h _

theorem adds_ban_ok_handle_timeout (env : Env) (config : t_config) (st : St) :
    adds (ban_ok env config) st (handle_timeout env config st) := by
  unfold handle_timeout ban_client
  dsimp only
  repeat' split
  all_goals simp_all [adds_iff, may_ban, ban_ok]

theorem adds_ban_ok_flood_check (env : Env) (config : t_config) (st : St) :
    adds (ban_ok env config) st (flood_check env config st) := by
  unfold flood_check
  dsimp only
  repeat' split
  all_goals simp_all [adds_iff, ban_ok]

/-! ## C5: bans are guarded and happen at most once -/

/-- C5: in `serve_client`, `handle_timeout`, `handle_request_result` and the
flood check of `connection_handler`, every `ban_ip` added to the trace has a
duration greater than 0 and an address that `ip_allowed` does not deny under
`banlist_mask`; and `serve_client` followed by `handle_request_result` calls
`ban_ip` at most once in all, hence at most once for any one cause. -/
theorem ban_ip_guarded_and_at_most_once (env : Env) (config : t_config) (binding : t_binding)
    (st : St) :
    adds (ban_ok env config) st (serve_client env config binding st).2 ∧
    adds (ban_ok env config) st (handle_timeout env config st) ∧
    (∀ result : Int, adds (ban_ok env config) st (handle_request_result env config st result)) ∧
    adds (ban_ok env config) st (flood_check env config st) ∧
    (∃ new : List Event,
      (handle_request_result env config (serve_client env config binding st).2
        (serve_client env config binding st).1).tr = st.tr ++ new ∧
      new.countP is_ban ≤ 1) := by
  obtain ⟨new, h1, h2, h3⟩ := stage_bans_serve_client_stages env config binding st
  refine ⟨⟨new, h1, h2⟩, adds_ban_ok_handle_timeout env config st, ?_,
    adds_ban_ok_flood_check env config st, ?_⟩
  · intro result
    obtain ⟨n, g1, g2, _⟩ := at_most_one_ban_handle_request_result env config st result
    exact ⟨n, g1, g2⟩
  · rcases h3 with h3 | h3
    · obtain ⟨n, g1, _, g3⟩ := at_most_one_ban_handle_request_result env config
        (serve_client env config binding st).2 (serve_client env config binding st).1
      refine ⟨new ++ n, ?_, ?_⟩
      · rw [g1]
        show (serve_client_stages env config binding st).2.tr ++ n = _
        rw [h1, List.append_assoc]
      · rw [List.countP_append, h3, Nat.zero_add]
        exact g3
    · have hres : (serve_client env config binding st).1 = 403 := by
        unfold serve_client
        rw [h3.2]
        rfl
      rw [hres]
      obtain ⟨n, g1, g2⟩ := no_bans_handle_request_result_403 env config
        (serve_client env config binding st).2
      refine ⟨new ++ n, ?_, ?_⟩
      · rw [g1]
        show (serve_client_stages env config binding st).2.tr ++ n = _
        rw [h1, List.append_assoc]
      · rw [List.countP_append, h3.1, no_bans_count g2]

/-! ## C6: the body survives the denylist -/

theorem set_set_getD (l : List Char) (i : Nat) (a d : Char) :
    (l.set i a).set i (l.getD i d) = l := by
  induction l generalizing i with
  | nil => rfl
  | cons x xs ih =>
    cases i with
    | zero => rfl
    | succ n =>
      simp only [List.set_cons_succ, List.getD_cons_succ]
      rw [ih]

theorem poke_body_restore (s : t_session) (memory : List Char) (a : Char)
    (h : s.body = some memory) :
    poke_body (poke_body s a) (memory.getD s.content_length '\x00') = s := by
  cases s
  simp only [poke_body] at *
  subst h
  simp only [Option.map_some', set_set_getD]

theorem deny_body_loop_session (env : Env) (config : t_config) (chr : Char) (st : St)
    (patterns : List t_pattern) :
    (deny_body_loop env config chr st patterns).2.s =
      if (deny_body_loop env config chr st patterns).1 = none then st.s
      else poke_body st.s chr := by
  induction patterns with
  | nil => rfl
  | cons pattern rest ih =>
    unfold deny_body_loop
    split
    · unfold ban_client
      dsimp only
      repeat' split
      all_goals first
        | rfl
        | simp_all
    · exact ih

theorem deny_body_loop_result (env : Env) (config : t_config) (chr : Char) (st : St)
    (patterns : List t_pattern) :
    (deny_body_loop env config chr st patterns).1 =
      if ∃ p ∈ patterns, env.strpcmp (c_string (st.s.body.getD [])) p = 0 then some 403
      else none := by
  induction patterns with
  | nil => simp [deny_body_loop]
  | cons pattern rest ih =>
    unfold deny_body_loop
    split
    · rename_i h
      simp [h]
    · rename_i h
      rw [ih]
      simp [h]

/-- C6: the body-denylist stage of `serve_client` leaves the session, and so
every byte of the request buffer, as it found it on both exit paths; for a
non-NULL body the patterns are matched against the body with a NUL written at
`body[content_length]`, and the stage returns 403 exactly when a pattern
matches and falls through otherwise. -/
theorem stage_deny_body_restores (env : Env) (config : t_config) (st : St) :
    (stage_deny_body env config st).2.s = st.s ∧
    (stage_deny_body env config st).2.s.body = st.s.body ∧
    ∀ memory, st.s.body = some memory →
      (stage_deny_body env config st).1 =
        if ∃ p ∈ st.s.host.deny_body,
            env.strpcmp (c_string (memory.set st.s.content_length '\x00')) p = 0
        then some 403 else none := by
  have key : (stage_deny_body env config st).2.s = st.s := by
    unfold stage_deny_body
    split
    · rfl
    · rename_i memory hm
      dsimp only
      unfold Stage.next
      have hs := deny_body_loop_session env config (memory.getD st.s.content_length '\x00')
        (st.upd (fun s => poke_body s '\x00')) (st.upd (fun s => poke_body s '\x00')).s.host.deny_body
      split
      · rename_i r hr
        dsimp only
        rw [hs, hr]
        simp only [St.upd_s, reduceCtorEq, if_false]
        exact poke_body_restore st.s memory _ hm
      · rename_i hr
        dsimp only
        rw [St.upd_s, hs, hr]
        simp only [St.upd_s, if_true]
        exact poke_body_restore st.s memory _ hm
  refine ⟨key, by rw [key], ?_⟩
  intro memory hm
  have hfst : ∀ (a : Stage) (g : St → St), (a.next (fun st2 => (none, g st2))).1 = a.1 := by
    intro a g
    unfold Stage.next
    split <;> simp_all
  have hb : (st.upd (fun s => poke_body s '\x00')).s.body
      = some (memory.set st.s.content_length '\x00') := by
    simp [poke_body, hm]
  have hh : (st.upd (fun s => poke_body s '\x00')).s.host = st.s.host := rfl
  unfold stage_deny_body
  rw [hm]
  dsimp only
  rw [hfst, deny_body_loop_result, hb, hh]
  rfl

/-- C6, witness: the body `ab` followed by `Z` matches a denied pattern; the
stage returns 403 and the buffer still reads `a`, `b`, `Z`. -/
theorem stage_deny_body_restores_witness :
    (stage_deny_body c6_env sample_config c6_state).2.s.body = some ['a', 'b', 'Z'] ∧
    (stage_deny_body c6_env sample_config c6_state).1 = some 403 := by
  have h := stage_deny_body_restores c6_env sample_config c6_state
  refine ⟨h.2.1, ?_⟩
  rw [h.2.2 ['a', 'b', 'Z'] rfl]
  decide

/-! ## C7: method gating -/

/-- C7: the method-gating stage of `serve_client`. `TRACE` returns 501 when
`enable_trace` is false and otherwise the result of `handle_trace_request`;
`PUT` and `DELETE` return 501 when `enable_alter` and `webdav_app` are both
false; `unknown` returns 400; `unsupported` returns 501 when `webdav_app` is
false; in every other case the stage falls through and leaves the state as it
is. What the stage returns is what `serve_client` returns. -/
theorem stage_method_gates (env : Env) (config : t_config) (binding : t_binding) (st : St) :
    (st.s.request_method = t_req_method.TRACE → binding.enable_trace = false →
      stage_method env binding st = (some 501, st)) ∧
    (st.s.request_method = t_req_method.TRACE → binding.enable_trace = true →
      stage_method env binding st
        = (some (call env ExtFn.handle_trace_request st).1,
           (call env ExtFn.handle_trace_request st).2)) ∧
    (st.s.request_method = t_req_method.PUT ∨ st.s.request_method = t_req_method.DELETE →
      binding.enable_alter = false → st.s.host.webdav_app = false →
      stage_method env binding st = (some 501, st)) ∧
    (st.s.request_method = t_req_method.unknown → stage_method env binding st = (some 400, st)) ∧
    (st.s.request_method = t_req_method.unsupported → st.s.host.webdav_app = false →
      stage_method env binding st = (some 501, st)) ∧
    (st.s.request_method ≠ t_req_method.TRACE →
      st.s.request_method ≠ t_req_method.unknown →
      ¬ ((st.s.request_method = t_req_method.PUT ∨ st.s.request_method = t_req_method.DELETE)
          ∧ binding.enable_alter = false ∧ st.s.host.webdav_app = false) →
      ¬ (st.s.request_method = t_req_method.unsupported ∧ st.s.host.webdav_app = false) →
      stage_method env binding st = (none, st)) ∧
    (∀ (st0 : St) (r : Int), serve_client_head env config binding st0 = (none, st) →
      (stage_method env binding st).1 = some r →
      serve_client env config binding st0 = (r, (stage_method env binding st).2)) := by
  refine ⟨?_, ?_, ?_, ?_, ?_, ?_, ?_⟩
  · intro hm ht
    simp [stage_method, hm, ht]
  · intro hm ht
    simp [stage_method, hm, ht]
  · intro hm ha hw
    rcases hm with hm | hm <;> simp [stage_method, hm, ha, hw]
  · intro hm
    simp [stage_method, hm]
  · intro hm hw
    simp [stage_method, hm, hw]
  · intro h1 h2 h3 h4
    unfold stage_method
    cases hm : st.s.request_method <;> simp_all
  · intro st0 r hhead hr
    unfold serve_client serve_client_stages serve_client_gate
    rw [hhead, Stage.next_pair_none, Stage.next_some hr]
    rfl

/-! ## C8: URL toolkit, error and ban -/

theorem toolkit_loop_after (env : Env) (config : t_config) (pre rest : List CStr) :
    ∀ (st : St) (options : t_toolkit_options) (st2 : St) (options2 : t_toolkit_options),
      toolkit_after env config st options pre = some (st2, options2) →
      toolkit_loop env config st options (pre ++ rest)
        = toolkit_loop env config st2 options2 rest := by
  induction pre with
  | nil =>
    intro st options st2 options2 h
    simp only [toolkit_after, Option.some.injEq, Prod.mk.injEq] at h
    rw [List.nil_append, h.1, h.2]
  | cons rule pre ih =>
    intro st options st2 options2 h
    unfold toolkit_after at h
    rw [List.cons_append]
    split at h
    · exact absurd h (by simp)
    · rename_i hnone
      simp only [toolkit_loop, hnone]
      exact ih _ _ _ _ h

theorem serve_client_of_toolkit (env : Env) (config : t_config) (binding : t_binding)
    (st0 st1 : St) (r : Int) (hgate : serve_client_gate env config binding st0 = (none, st1))
    (hr : (stage_toolkit env config binding st1).1 = some r) :
    serve_client env config binding st0 = (r, (stage_toolkit env config binding st1).2) := by
  unfold serve_client serve_client_stages
  rw [hgate, Stage.next_pair_none]
  unfold serve_client_tail
  rw [Stage.next_some hr, Stage.next_pair_some, Stage.next_pair_some, Stage.next_pair_some,
    Stage.next_pair_some, Stage.next_pair_some]
  rfl

/-- C8, counterexample: the rule `ban` leaves `toolkit_options.ban = 60`, but
the peer is denied by `banlist_mask`; nobody is banned, the later stages run
and `serve_client` returns 200, not 403. -/
theorem c8_ban_outcome_without_ban :
    c8_state.s.request_method = t_req_method.GET ∧
    (c8_env.use_toolkit [] c8_state.s.uri "ban".toList
      (c8_env.init_toolkit_options [] 0 false false 0)).2.ban = 60 ∧
    (serve_client c8_env c8_masked sample_binding c8_state).1 = 200 ∧
    (serve_client c8_env c8_masked sample_binding c8_state).2.tr.countP is_ban = 0 ∧
    Event.call ExtFn.handle_xml_file
      ∈ (serve_client c8_env c8_masked sample_binding c8_state).2.tr := by
  decide

/-- C8, amended: for a request whose method is neither `PUT` nor `DELETE`
and a toolkit rule that `serve_client` evaluates (the rules before it did not
end the request), if `use_toolkit` returns `UT_ERROR` then `serve_client`
returns 500; otherwise, if `toolkit_options.ban > 0` after the call and the
peer is not denied by `banlist_mask`, the peer is banned and `serve_client`
returns 403 at once: the state left is the state before the rule plus the ban,
so no further rule and no later stage is evaluated. -/
theorem serve_client_toolkit_error_or_ban (env : Env) (config : t_config) (binding : t_binding)
    (st0 st1 st2 : St) (options2 : t_toolkit_options) (pre rest : List CStr) (rule : CStr)
    (hgate : serve_client_gate env config binding st0 = (none, st1))
    (hput : st1.s.request_method ≠ t_req_method.PUT)
    (hdelete : st1.s.request_method ≠ t_req_method.DELETE)
    (hrules : st1.s.host.toolkit_rules = pre ++ rule :: rest)
    (hpre : toolkit_after env config st1
      (env.init_toolkit_options st1.s.host.website_root config.url_toolkit binding.use_ssl
        st1.s.host.allow_dot_files st1.s.http_headers) pre = some (st2, options2)) :
    ((env.use_toolkit st2.tr st2.s.uri rule options2).1 = t_ut_result.UT_ERROR →
      serve_client env config binding st0 = (500, st2)) ∧
    ((env.use_toolkit st2.tr st2.s.uri rule options2).1 ≠ t_ut_result.UT_ERROR →
      (env.use_toolkit st2.tr st2.s.uri rule options2).2.ban > 0 →
      env.ip_allowed st2.s.ip_address config.banlist_mask ≠ t_access.deny →
      serve_client env config binding st0
        = (403, ban_client config st2 (env.use_toolkit st2.tr st2.s.uri rule options2).2.ban
            "Client banned because of URL match in UrlToolkit rule")) := by
  have hstage : stage_toolkit env config binding st1
      = toolkit_loop env config st2 options2 (rule :: rest) := by
    unfold stage_toolkit
    simp only [hput, hdelete, ne_eq, not_false_eq_true, and_self, if_true]
    rw [hrules]
    exact toolkit_loop_after env config pre (rule :: rest) _ _ _ _ hpre
  constructor
  · intro herr
    have hrule : (toolkit_rule env config st2 options2 rule).1 = (some 500, st2) := by
      unfold toolkit_rule
      simp [herr]
    have hloop : toolkit_loop env config st2 options2 (rule :: rest) = (some 500, st2) := by
      unfold toolkit_loop
      rw [hrule]
    have h := serve_client_of_toolkit env config binding st0 st1 500 hgate
      (by rw [hstage, hloop])
    rw [h, hstage, hloop]
  · intro hne hban hallow
    have hmay : may_ban env config st2.s (env.use_toolkit st2.tr st2.s.uri rule options2).2.ban
        = true := by
      simp [may_ban, hban, hallow]
    have hrule : (toolkit_rule env config st2 options2 rule).1
        = (some 403, ban_client config st2 (env.use_toolkit st2.tr st2.s.uri rule options2).2.ban
            "Client banned because of URL match in UrlToolkit rule") := by
      unfold toolkit_rule
      simp [hne, hmay]
    have hloop : toolkit_loop env config st2 options2 (rule :: rest)
        = (some 403, ban_client config st2 (env.use_toolkit st2.tr st2.s.uri rule options2).2.ban
            "Client banned because of URL match in UrlToolkit rule") := by
      unfold toolkit_loop
      rw [hrule]
    have h := serve_client_of_toolkit env config binding st0 st1 403 hgate
      (by rw [hstage, hloop])
    rw [h, hstage, hloop]

/-- C8, witness: with a `banlist_mask` that does not deny the peer, the rule
`pass` is evaluated, then the rule `ban` bans the peer for 60 seconds and
`serve_client` returns 403 with nothing after the ban in the trace. -/
theorem serve_client_toolkit_error_or_ban_witness :
    serve_client c8_env sample_config sample_binding c8_state
      = (403, ban_client sample_config c8_gate_state 60
          "Client banned because of URL match in UrlToolkit rule") ∧
    (serve_client c8_env sample_config sample_binding c8_state).2.tr
      = [Event.call ExtFn.fetch_request, Event.call (ExtFn.parse_request 0),
         Event.ban_ip { family := 2, value := 1 } 60 false,
         Event.log_system "Client banned because of URL match in UrlToolkit rule"] := by
  have h := (serve_client_toolkit_error_or_ban c8_env sample_config sample_binding c8_state
    c8_gate_state c8_gate_state { ban := 0, fastcgi_server := none, new_url := none, expire := -1 }
    ["pass".toList] [] "ban".toList (by decide) (by decide) (by decide) (by decide)
    (by decide)).2 (by decide) (by decide) (by decide)
  refine ⟨h, ?_⟩
  rw [h]
  decide

/-! ## C9: CGI classification -/

/-- C9: `check_target_is_cgi` selects by strict priority: `fastcgi` when
`find_fcgi_server` finds the toolkit-pinned server; else `fastcgi` when
`fcgi_server_match` matches the extension; else `binary` when the extension is
in `config.cgi_extension`; else `script`, with the handler of the first entry
of `config.cgi_handler` whose extension list holds the extension; else
`no_cgi`. The returned value is `session.cgi_type`, and `cgi_handler` is
non-NULL only for `script`. -/
theorem check_target_is_cgi_priority (env : Env) (config : t_config) (s : t_session) :
    (check_target_is_cgi env config s).1 = (check_target_is_cgi env config s).2.cgi_type ∧
    (env.find_fcgi_server config.fcgi_server s.toolkit_fastcgi ≠ none →
      (check_target_is_cgi env config s).1 = t_cgi_type.fastcgi) ∧
    (env.find_fcgi_server config.fcgi_server s.toolkit_fastcgi = none →
      env.fcgi_server_match config.fcgi_server s.host.fast_cgi s.extension ≠ none →
      (check_target_is_cgi env config s).1 = t_cgi_type.fastcgi) ∧
    (env.find_fcgi_server config.fcgi_server s.toolkit_fastcgi = none →
      env.fcgi_server_match config.fcgi_server s.host.fast_cgi s.extension = none →
      env.in_charlist s.extension config.cgi_extension = true →
      (check_target_is_cgi env config s).1 = t_cgi_type.binary) ∧
    (env.find_fcgi_server config.fcgi_server s.toolkit_fastcgi = none →
      env.fcgi_server_match config.fcgi_server s.host.fast_cgi s.extension = none →
      env.in_charlist s.extension config.cgi_extension = false →
      ∀ (before after : List t_cgi_handler) (cgi : t_cgi_handler),
        config.cgi_handler = before ++ cgi :: after →
        (∀ c ∈ before, env.in_charlist s.extension c.extension = false) →
        env.in_charlist s.extension cgi.extension = true →
        (check_target_is_cgi env config s).1 = t_cgi_type.script ∧
        (check_target_is_cgi env config s).2.cgi_handler = some cgi.handler) ∧
    (env.find_fcgi_server config.fcgi_server s.toolkit_fastcgi = none →
      env.fcgi_server_match config.fcgi_server s.host.fast_cgi s.extension = none →
      env.in_charlist s.extension config.cgi_extension = false →
      (∀ c ∈ config.cgi_handler, env.in_charlist s.extension c.extension = false) →
      (check_target_is_cgi env config s).1 = t_cgi_type.no_cgi) ∧
    ((check_target_is_cgi env config s).2.cgi_handler ≠ none →
      (check_target_is_cgi env config s).2.cgi_type = t_cgi_type.script) := by
  refine ⟨?_, ?_, ?_, ?_, ?_, ?_, ?_⟩
  · unfold check_target_is_cgi
    dsimp only
    repeat' split
    all_goals rfl
  · intro h
    unfold check_target_is_cgi
    dsimp only
    split
    · rfl
    · rename_i hn
      exact absurd hn h
  · intro h1 h2
    unfold check_target_is_cgi
    dsimp only
    rw [h1]
    dsimp only
    split
    · rfl
    · rename_i hn
      exact absurd hn h2
  · intro h1 h2 h3
    unfold check_target_is_cgi
    dsimp only
    rw [h1]
    dsimp only
    rw [h2]
    simp [h3]
  · intro h1 h2 h3 before after cgi hlist hbefore hcgi
    have hfind : config.cgi_handler.find? (fun c => env.in_charlist s.extension c.extension)
        = some cgi := by
      rw [hlist, List.find?_append]
      have hb : before.find? (fun c => env.in_charlist s.extension c.extension) = none := by
        rw [List.find?_eq_none]
        intro c hc
        simp [hbefore c hc]
      rw [hb]
      simp [List.find?_cons, hcgi]
    unfold check_target_is_cgi
    dsimp only
    rw [h1]
    dsimp only
    rw [h2]
    simp [h3, hfind]
  · intro h1 h2 h3 hall
    have hfind : config.cgi_handler.find? (fun c => env.in_charlist s.extension c.extension)
        = none := by
      rw [List.find?_eq_none]
      intro c hc
      simp [hall c hc]
    unfold check_target_is_cgi
    dsimp only
    rw [h1]
    dsimp only
    rw [h2]
    simp [h3, hfind]
  · unfold check_target_is_cgi
    dsimp only
    repeat' split
    all_goals simp

/-! ## C10: timeout -/

/-- C10: `handle_request_result` with result -1 and cause `ec_TIMEOUT`. On a
first request (`kept_alive = 0`) it sets `return_code` to 408, calls
`send_code` and then `handle_timeout`, which bans the peer exactly when
`ban_on_timeout > 0` and the peer is not denied by `banlist_mask`, and logs
the timeout otherwise. On a later request (`kept_alive > 0`) the trace does
not change: nothing is sent, nobody is banned, no line is logged. In both
cases `keep_alive` is false afterwards. -/
theorem handle_request_result_timeout (env : Env) (config : t_config) (st : St)
    (hcause : st.s.error_cause = t_error_cause.ec_TIMEOUT) :
    (st.s.kept_alive = 0 →
      handle_request_result env config st (-1)
        = (handle_timeout env config
            (send_code env (st.upd (fun s => { s with return_code := 408 }))).2).upd
            (fun s => { s with keep_alive := false }) ∧
      (handle_request_result env config st (-1)).tr
        = st.tr ++ Event.send_code 408 ::
            (if config.ban_on_timeout > 0 ∧
                env.ip_allowed (send_code env (st.upd (fun s => { s with return_code := 408 }))).2.s.ip_address
                  config.banlist_mask ≠ t_access.deny
             then Event.ban_ip
                    (send_code env (st.upd (fun s => { s with return_code := 408 }))).2.s.ip_address
                    config.ban_on_timeout config.kick_on_ban ::
                  Event.log_system "Client banned because of connection timeout" ::
                  (if config.monitor_enabled then [Event.monitor_counter_ban] else [])
             else [Event.log_system "Timeout while waiting for request"])) ∧
    (st.s.kept_alive > 0 →
      (handle_request_result env config st (-1)).tr = st.tr ∧
      (handle_request_result env config st (-1)).s = { st.s with keep_alive := false }) ∧
    (handle_request_result env config st (-1)).s.keep_alive = false := by
  have hfin : (handle_request_result env config st (-1)).s.keep_alive = false := by
    unfold handle_request_result
    simp
  refine ⟨?_, ?_, hfin⟩
  · intro hk
    have heq : handle_request_result env config st (-1)
        = (handle_timeout env config
            (send_code env (st.upd (fun s => { s with return_code := 408 }))).2).upd
            (fun s => { s with keep_alive := false }) := by
      unfold handle_request_result handle_transport_error
      simp [hcause, hk]
    refine ⟨heq, ?_⟩
    rw [heq, St.upd_tr]
    unfold handle_timeout
    split
    · rename_i hb
      have hb2 : config.ban_on_timeout > 0 ∧
          env.ip_allowed (send_code env (st.upd (fun s => { s with return_code := 408 }))).2.s.ip_address
            config.banlist_mask ≠ t_access.deny := by
        simpa [may_ban] using hb
      rw [if_pos hb2, ban_client_tr, send_code_tr]
      simp
    · rename_i hb
      have hb2 : ¬ (config.ban_on_timeout > 0 ∧
          env.ip_allowed (send_code env (st.upd (fun s => { s with return_code := 408 }))).2.s.ip_address
            config.banlist_mask ≠ t_access.deny) := by
        simpa [may_ban] using hb
      rw [if_neg hb2]
      simp
  · intro hk
    have hk0 : st.s.kept_alive ≠ 0 := by omega
    unfold handle_request_result handle_transport_error
    simp [hcause, hk0]

/-- C10, witness: a first-request timeout with `ban_on_timeout = 30` sends
408 and bans the peer for 30 seconds; `keep_alive` ends false. -/
theorem handle_request_result_timeout_witness :
    (handle_request_result sample_env c10_config c10_state (-1)).tr
      = [Event.send_code 408, Event.ban_ip { family := 2, value := 1 } 30 false,
         Event.log_system "Client banned because of connection timeout"] ∧
    (handle_request_result sample_env c10_config c10_state (-1)).s.keep_alive = false := by
  have h := handle_request_result_timeout sample_env c10_config c10_state rfl
  refine ⟨?_, h.2.2⟩
  rw [(h.1 rfl).2]
  decide

/-! ## `serve_client` always returns -/

theorem Stage.next_returns (a : Stage) (f : St → Stage) (hf : ∀ st, (f st).1 ≠ none) :
    (a.next f).1 ≠ none := by
  unfold Stage.next
  split
  · simp
  · exact hf _

/-- The last stage of `serve_client` returns a status on every path, so the
function never runs off its end. -/
theorem serve_client_stages_returns (env : Env) (config : t_config) (binding : t_binding)
    (st : St) : (serve_client_stages env config binding st).1 ≠ none := by
  unfold serve_client_stages
  apply Stage.next_returns
  intro st1
  unfold serve_client_tail
  apply Stage.next_returns
  intro st2
  simp

/-- The first stage falls through exactly when `fetch_request` and
`parse_request` both return 200. -/
theorem stage_fetch_parse_falls_through_iff (env : Env) (st : St) :
    (stage_fetch_parse env st).1 = none ↔
      (call env ExtFn.fetch_request st).1 = 200 ∧
      (call env (ExtFn.parse_request ((call env ExtFn.fetch_request st).2.s.header_length
          + (call env ExtFn.fetch_request st).2.s.content_length))
        (call env ExtFn.fetch_request st).2).1 = 200 := by
  unfold stage_fetch_parse
  dsimp only
  split
  · rename_i h
    simp [h]
  · rename_i h
    split
    · rename_i h2
      simp [h2]
    · rename_i h2
      simp only [ne_eq, not_not] at h h2
      simp [h, h2]

/-! ## C11: hiding of reverse proxies -/

theorem last_forwarded_after_comma (before after : CStr) (h : ',' ∉ after) :
    last_forwarded (before ++ ',' :: after) = after.dropWhile (fun c => c == ' ') := by
  unfold last_forwarded
  have hmem : ',' ∈ before ++ ',' :: after := by simp
  simp only [hmem, if_true]
  have hrev : (before ++ ',' :: after).reverse = after.reverse ++ ',' :: before.reverse := by
    simp
  rw [hrev, List.takeWhile_append_of_pos]
  · simp
  · intro c hc
    have hc2 : c ∈ after := List.mem_reverse.mp hc
    have : c ≠ ',' := fun e => h (e ▸ hc2)
    simpa using this

theorem last_forwarded_no_comma (value : CStr) (h : ',' ∉ value) :
    last_forwarded value = value.dropWhile (fun c => c == ' ') := by
  unfold last_forwarded
  simp only [h, if_false]

/-- C11: the proxy-unmasking stage of `serve_client`. The peer address is
replaced exactly when the peer is in `hide_proxy`, an `X-Forwarded-For` header
is present, the text after its last comma (the whole value without a comma),
leading spaces skipped, is not empty and parses as an address, and
`reposition_client` succeeds for that address; the new address is that parsed
address. In every other case `ip_address` keeps its value. -/
theorem stage_hide_proxy_address (env : Env) (config : t_config) (st : St) :
    (∀ (header : CStr) (ip : t_ip_addr),
      env.in_iplist config.hide_proxy st.s.ip_address = true →
      env.get_http_header hs_forwarded st.s.http_headers = some header →
      last_forwarded header ≠ [] →
      env.parse_ip (last_forwarded header) = some ip →
      env.reposition_client st.tr ip ≠ -1 →
      (stage_hide_proxy env config st).2.s.ip_address = ip) ∧
    (¬ (∃ (header : CStr) (ip : t_ip_addr),
        env.in_iplist config.hide_proxy st.s.ip_address = true ∧
        env.get_http_header hs_forwarded st.s.http_headers = some header ∧
        last_forwarded header ≠ [] ∧
        env.parse_ip (last_forwarded header) = some ip ∧
        env.reposition_client st.tr ip ≠ -1) →
      (stage_hide_proxy env config st).2.s.ip_address = st.s.ip_address) ∧
    (∀ before after : CStr, ',' ∉ after →
      last_forwarded (before ++ ',' :: after) = after.dropWhile (fun c => c == ' ')) ∧
    (∀ value : CStr, ',' ∉ value →
      last_forwarded value = value.dropWhile (fun c => c == ' ')) := by
  refine ⟨?_, ?_, last_forwarded_after_comma, last_forwarded_no_comma⟩
  · intro header ip h1 h2 h3 h4 h5
    unfold stage_hide_proxy
    simp [h1, h2, h3, h4, h5]
  · intro hnot
    unfold stage_hide_proxy
    dsimp only
    split
    · rename_i h1
      split
      · rfl
      · rename_i header h2
        split
        · rename_i h3
          split
          · rfl
          · rename_i ip h4
            split
            · rename_i h5
              exact absurd ⟨header, ip, h1, h2, h3, h4, h5⟩ hnot
            · rfl
        · rfl
    · rfl

/-! ## Reaching the later stages of `serve_client` -/

theorem serve_client_tail_eq (env : Env) (config : t_config) (binding : t_binding) (st : St) :
    serve_client_tail env config binding st =
      (serve_client_classified env config binding st).next
        (fun st1 => (some (stage_dispatch env config st1).1, (stage_dispatch env config st1).2)) :=
  rfl

theorem serve_client_of_dispatch (env : Env) (config : t_config) (binding : t_binding)
    (st0 st1 st2 : St) (hgate : serve_client_gate env config binding st0 = (none, st1))
    (hclass : serve_client_classified env config binding st1 = (none, st2)) :
    serve_client env config binding st0 = stage_dispatch env config st2 := by
  unfold serve_client serve_client_stages
  rw [hgate, Stage.next_pair_none, serve_client_tail_eq, hclass, Stage.next_pair_none]
  rfl

theorem serve_client_of_target_kind (env : Env) (config : t_config) (binding : t_binding)
    (st0 st1 st2 : St) (r : Int) (hgate : serve_client_gate env config binding st0 = (none, st1))
    (hacc : ((stage_toolkit env config binding st1).next (stage_resolve env)).next
      (access_control env) = (none, st2))
    (hr : (stage_target_kind env st2).1 = some r) :
    serve_client env config binding st0 = (r, (stage_target_kind env st2).2) := by
  unfold serve_client serve_client_stages
  rw [hgate, Stage.next_pair_none]
  unfold serve_client_tail
  rw [hacc, Stage.next_pair_none, Stage.next_some hr, Stage.next_pair_some, Stage.next_pair_some]
  rfl

/-- C11, witness: a trusted proxy forwards `10.0.0.1, 10.0.0.2`; the session's
address becomes the rightmost one. -/
theorem stage_hide_proxy_address_witness :
    (stage_hide_proxy c11_env sample_config { s := sample_session, tr := [] }).2.s.ip_address
      = { family := 2, value := 2 } :=
  (stage_hide_proxy_address c11_env sample_config { s := sample_session, tr := [] }).1
    "10.0.0.1, 10.0.0.2".toList { family := 2, value := 2 } (by decide) (by decide) (by decide)
    (by decide) (by decide)

/-! ## C15: PATH_INFO -/

/-- What the target-kind stage does about PATH_INFO: `get_path_info` is
called exactly when `is_directory` says `no`, `enable_path_info` is set and
the method is not `PUT` or the host is a WebDAV application. -/
theorem stage_target_kind_path_info (env : Env) (st : St) :
    (Event.call ExtFn.get_path_info ∈ (stage_target_kind env st).2.tr ↔
      Event.call ExtFn.get_path_info ∈ st.tr ∨
      (env.is_directory st.tr st.s.file_on_disk = t_fsbool.no ∧
        st.s.host.enable_path_info = true ∧
        (st.s.request_method ≠ t_req_method.PUT ∨ st.s.host.webdav_app = true))) := by
  unfold stage_target_kind
  cases hd : env.is_directory st.tr st.s.file_on_disk with
  | error => simp
  | yes => simp
  | no =>
    dsimp only
    split
    · rename_i h
      have h2 : st.s.host.enable_path_info = true ∧
          (st.s.request_method ≠ t_req_method.PUT ∨ st.s.host.webdav_app = true) :=
        ⟨h.2, h.1⟩
      split <;> simp [h2]
    · rename_i h
      have h2 : ¬ (st.s.host.enable_path_info = true ∧
          (st.s.request_method ≠ t_req_method.PUT ∨ st.s.host.webdav_app = true)) :=
        fun x => h ⟨x.2, x.1⟩
      simp [h2]
  | no_access => simp
  | not_found =>
    dsimp only
    split <;> simp

/-- C15, the code at the failing input: a DELETE on a host that is not a
WebDAV application, with PATH_INFO enabled and a regular file as target, does
call `get_path_info`. -/
theorem c15_delete_calls_get_path_info :
    c15_state.s.request_method = t_req_method.DELETE ∧
    c15_state.s.host.webdav_app = false ∧
    Event.call ExtFn.get_path_info
      ∈ (serve_client sample_env sample_config c15_binding c15_state).2.tr ∧
    (serve_client sample_env sample_config c15_binding c15_state).2.tr
      = [Event.call ExtFn.fetch_request, Event.call (ExtFn.parse_request 0),
         Event.call ExtFn.duplicate_host, Event.call ExtFn.validate_url,
         Event.call ExtFn.uri_to_path, Event.call ExtFn.load_user_config,
         Event.call ExtFn.copy_directory_settings, Event.call ExtFn.get_path_info,
         Event.call ExtFn.get_target_extension, Event.call ExtFn.handle_delete_request] := by
  decide

/-! ## C16: dispatch of PUT and DELETE -/

theorem adds_dispatch_post (env : Env) (st : St) :
    adds post_event st (dispatch_post env st).2 := by
  unfold dispatch_post
  dsimp only
  repeat' split
  all_goals simp [adds_iff, post_event]

/-- C16: dispatch of a `PUT` or `DELETE` that reaches the method dispatch.
On a WebDAV host it is dispatched as `POST`: the result of `execute_cgi` when
`cgi_type` is not `no_cgi`, else of `handle_xml_file` when XSLT applies, else
405, and the only external calls are those three (no `handle_put_request`, no
`handle_delete_request`, no hook). On any other host `PUT` returns the result
of `handle_put_request` and runs the `run_on_alter` program, with that result
as return code, exactly when the result is 201 or 204 and `run_on_alter` is
set; `DELETE` returns the result of `handle_delete_request` and runs the
program exactly when the result is 204 and `run_on_alter` is set. -/
theorem stage_dispatch_put_delete (env : Env) (config : t_config) (binding : t_binding)
    (st : St) :
    (∀ st0 st1 : St, serve_client_gate env config binding st0 = (none, st1) →
      serve_client_classified env config binding st1 = (none, st) →
      serve_client env config binding st0 = stage_dispatch env config st) ∧
    (st.s.request_method = t_req_method.PUT ∨ st.s.request_method = t_req_method.DELETE →
      st.s.host.webdav_app = true →
      stage_dispatch env config st = dispatch_post env st ∧
      adds post_event st (stage_dispatch env config st).2 ∧
      (st.s.cgi_type ≠ t_cgi_type.no_cgi →
        stage_dispatch env config st = call env ExtFn.execute_cgi st) ∧
      (st.s.cgi_type = t_cgi_type.no_cgi →
        (call env ExtFn.can_transform_with_xslt st).1 ≠ 0 →
        stage_dispatch env config st
          = call env ExtFn.handle_xml_file (call env ExtFn.can_transform_with_xslt st).2) ∧
      (st.s.cgi_type = t_cgi_type.no_cgi →
        (call env ExtFn.can_transform_with_xslt st).1 = 0 →
        stage_dispatch env config st = (405, (call env ExtFn.can_transform_with_xslt st).2))) ∧
    (st.s.request_method = t_req_method.PUT → st.s.host.webdav_app = false →
      (stage_dispatch env config st).1 = (call env ExtFn.handle_put_request st).1 ∧
      (∀ program,
        ((call env ExtFn.handle_put_request st).1 = 201 ∨
          (call env ExtFn.handle_put_request st).1 = 204) →
        (call env ExtFn.handle_put_request st).2.s.host.run_on_alter = some program →
        (stage_dispatch env config st).2
          = (run_program env config (call env ExtFn.handle_put_request st).2 program
              (call env ExtFn.handle_put_request st).1).2) ∧
      (¬ (((call env ExtFn.handle_put_request st).1 = 201 ∨
            (call env ExtFn.handle_put_request st).1 = 204) ∧
          (call env ExtFn.handle_put_request st).2.s.host.run_on_alter ≠ none) →
        (stage_dispatch env config st).2 = (call env ExtFn.handle_put_request st).2)) ∧
    (st.s.request_method = t_req_method.DELETE → st.s.host.webdav_app = false →
      (stage_dispatch env config st).1 = (call env ExtFn.handle_delete_request st).1 ∧
      (∀ program,
        (call env ExtFn.handle_delete_request st).1 = 204 →
        (call env ExtFn.handle_delete_request st).2.s.host.run_on_alter = some program →
        (stage_dispatch env config st).2
          = (run_program env config (call env ExtFn.handle_delete_request st).2 program
              (call env ExtFn.handle_delete_request st).1).2) ∧
      (¬ ((call env ExtFn.handle_delete_request st).1 = 204 ∧
          (call env ExtFn.handle_delete_request st).2.s.host.run_on_alter ≠ none) →
        (stage_dispatch env config st).2 = (call env ExtFn.handle_delete_request st).2)) := by
  refine ⟨fun st0 st1 hgate hclass =>
    serve_client_of_dispatch env config binding st0 st1 st hgate hclass, ?_, ?_, ?_⟩
  · intro hm hw
    have hd : stage_dispatch env config st = dispatch_post env st := by
      unfold stage_dispatch dispatch_method
      rcases hm with hm | hm <;> simp [hm, hw]
    refine ⟨hd, ?_, ?_, ?_, ?_⟩
    · rw [hd]
      exact adds_dispatch_post env st
    · intro hc
      rw [hd]
      unfold dispatch_post
      simp [hc]
    · intro hc hx
      rw [hd]
      unfold dispatch_post
      simp [hc, hx]
    · intro hc hx
      rw [hd]
      unfold dispatch_post
      simp [hc, hx]
  · intro hm hw
    have hd : stage_dispatch env config st = dispatch_put env config st := by
      unfold stage_dispatch dispatch_method
      simp [hm, hw]
    rw [hd]
    unfold dispatch_put
    dsimp only
    refine ⟨?_, ?_, ?_⟩
    · repeat' split
      all_goals rfl
    · intro program hres hrun
      simp [hres, hrun]
    · intro hnot
      split
      · rename_i hres
        split
        · rename_i program hrun
          exact absurd ⟨hres, by simp [hrun]⟩ hnot
        · rfl
      · rfl
  · intro hm hw
    have hd : stage_dispatch env config st = dispatch_delete env config st := by
      unfold stage_dispatch dispatch_method
      simp [hm, hw]
    rw [hd]
    unfold dispatch_delete
    dsimp only
    refine ⟨?_, ?_, ?_⟩
    · repeat' split
      all_goals rfl
    · intro program hres hrun
      simp [hres, hrun]
    · intro hnot
      split
      · rename_i hres
        split
        · rename_i program hrun
          exact absurd ⟨hres, by simp [hrun]⟩ hnot
        · rfl
      · rfl

/-- C16, witness: a PUT that creates the file on a host with a `run_on_alter`
program returns 201 and forks the program with return code 201. -/
theorem stage_dispatch_put_delete_witness :
    (stage_dispatch c16_env sample_config c16_state).1 = 201 ∧
    (stage_dispatch c16_env sample_config c16_state).2.tr
      = [Event.call ExtFn.handle_put_request, Event.fork "/usr/bin/hook".toList 201] := by
  have h := (stage_dispatch_put_delete c16_env sample_config sample_binding c16_state).2.2.1
    rfl rfl
  refine ⟨by rw [h.1]; decide, ?_⟩
  rw [h.2.1 "/usr/bin/hook".toList (by decide) (by decide)]
  decide

/-! ## C18: access decision -/

/-- C18: the decision table of `allow_client`. A verdict of the access list
for the peer other than `allow` is returned as it is. For an allowed peer the
result is `allow` when there is no `X-Forwarded-For` header or its value does
not parse as an address, `deny` when the forwarded address is denied by the
access list, and `unspecified` otherwise; in that last case `serve_client`
calls `http_authentication_result` in optional mode. `hide_proxy` plays no
part: the function does not read the configuration. -/
theorem allow_client_table (env : Env) (st : St) :
    (env.ip_allowed st.s.ip_address st.s.host.access_list ≠ t_access.allow →
      allow_client env st.s = env.ip_allowed st.s.ip_address st.s.host.access_list) ∧
    (env.ip_allowed st.s.ip_address st.s.host.access_list = t_access.allow →
      env.get_http_header hs_forwarded st.s.http_headers = none →
      allow_client env st.s = t_access.allow) ∧
    (env.ip_allowed st.s.ip_address st.s.host.access_list = t_access.allow →
      ∀ value, env.get_http_header hs_forwarded st.s.http_headers = some value →
      env.parse_ip value = none →
      allow_client env st.s = t_access.allow) ∧
    (env.ip_allowed st.s.ip_address st.s.host.access_list = t_access.allow →
      ∀ value forwarded, env.get_http_header hs_forwarded st.s.http_headers = some value →
      env.parse_ip value = some forwarded →
      env.ip_allowed forwarded st.s.host.access_list = t_access.deny →
      allow_client env st.s = t_access.deny) ∧
    (env.ip_allowed st.s.ip_address st.s.host.access_list = t_access.allow →
      ∀ value forwarded, env.get_http_header hs_forwarded st.s.http_headers = some value →
      env.parse_ip value = some forwarded →
      env.ip_allowed forwarded st.s.host.access_list ≠ t_access.deny →
      allow_client env st.s = t_access.unspecified ∧
      access_control env st =
        (if (call env (ExtFn.http_authentication_result true) st).1 ≠ 200
         then some (call env (ExtFn.http_authentication_result true) st).1 else none,
         (call env (ExtFn.http_authentication_result true) st).2)) := by
  refine ⟨?_, ?_, ?_, ?_, ?_⟩
  · intro h
    unfold allow_client
    simp [h]
  · intro h hh
    unfold allow_client
    simp [h, hh]
  · intro h value hh hp
    unfold allow_client
    simp [h, hh, hp]
  · intro h value forwarded hh hp hd
    unfold allow_client
    simp [h, hh, hp, hd]
  · intro h value forwarded hh hp hd
    have ha : allow_client env st.s = t_access.unspecified := by
      unfold allow_client
      simp [h, hh, hp, hd]
    refine ⟨ha, ?_⟩
    unfold access_control
    rw [ha]
    dsimp only
    split <;> rfl

/-- C18, witness: a peer the access list allows, with a forwarded address
that parses and is not denied, is sent to optional authentication. -/
theorem allow_client_table_witness :
    allow_client c18_env sample_session = t_access.unspecified ∧
    (access_control c18_env { s := sample_session, tr := [] }).2.tr
      = [Event.call (ExtFn.http_authentication_result true)] := by
  have h := (allow_client_table c18_env { s := sample_session, tr := [] }).2.2.2.2 rfl
    "10.0.0.2".toList { family := 2, value := 2 } rfl rfl (by decide)
  refine ⟨h.1, ?_⟩
  rw [h.2]
  decide

theorem connection_handler_pass_eq (env : Env) (config : t_config) (binding : t_binding)
    (st : St) :
    connection_handler_pass env config binding st
      = flood_check env config (connection_handler_request env config binding st) := rfl

/-! ## C12: flood ban in the keep-alive loop -/

/-- C12, counterexample: the connection is kept alive, `ban_on_flooding` is
60 and the client is flooding, but the peer is denied by `banlist_mask`:
nobody is banned, `keep_alive` is still true at the loop test and the loop
goes into another pass. -/
theorem c12_flooding_peer_on_banlist_mask :
    (connection_handler_request c12_env c12_masked sample_binding c12_state).s.kept_alive > 0 ∧
    c12_masked.ban_on_flooding > 0 ∧
    c12_env.client_is_flooding
      (connection_handler_request c12_env c12_masked sample_binding c12_state).tr = true ∧
    (connection_handler_pass c12_env c12_masked sample_binding c12_state).tr.countP is_ban = 0 ∧
    (connection_handler_pass c12_env c12_masked sample_binding c12_state).s.keep_alive = true ∧
    (connection_handler_pass c12_env c12_masked sample_binding c12_state).s.socket_open = true ∧
    connection_handler_loop c12_env c12_masked sample_binding 1 c12_state = none := by
  decide

/-- C12, amended: in a pass of the keep-alive loop, if at the flood check
`kept_alive > 0`, `ban_on_flooding > 0`, `client_is_flooding` reports
flooding and the peer is not denied by `banlist_mask`, then the peer is
banned for `ban_on_flooding`, `keep_alive` is false at the loop test and the
loop ends with this pass. -/
theorem connection_handler_flood_ban (env : Env) (config : t_config) (binding : t_binding)
    (st : St)
    (hkept : (connection_handler_request env config binding st).s.kept_alive > 0)
    (hban : config.ban_on_flooding > 0)
    (hflood : env.client_is_flooding (connection_handler_request env config binding st).tr = true)
    (hallow : env.ip_allowed (connection_handler_request env config binding st).s.ip_address
      config.banlist_mask ≠ t_access.deny) :
    (connection_handler_pass env config binding st).tr
      = (connection_handler_request env config binding st).tr ++
          Event.ban_ip (connection_handler_request env config binding st).s.ip_address
            config.ban_on_flooding config.kick_on_ban ::
          Event.log_system "Client banned because of flooding" ::
          (if config.monitor_enabled then [Event.monitor_counter_ban] else []) ∧
    (connection_handler_pass env config binding st).s.keep_alive = false ∧
    ∀ fuel : Nat, connection_handler_loop env config binding (fuel + 1) st
      = some (connection_handler_pass env config binding st) := by
  have hk : (connection_handler_pass env config binding st).s.keep_alive = false := by
    rw [connection_handler_pass_eq]
    unfold flood_check
    simp only [hkept, hban, and_self, if_true, hflood, hallow, ne_eq, not_false_eq_true]
    split <;> rfl
  refine ⟨?_, hk, ?_⟩
  · rw [connection_handler_pass_eq]
    unfold flood_check
    simp only [hkept, hban, and_self, if_true, hflood, hallow, ne_eq, not_false_eq_true]
    split <;> simp_all [St.emit, St.upd]
  · intro fuel
    unfold connection_handler_loop
    simp [hk]

/-- C12, witness: a flooding client on its second request is banned for 60
seconds and the loop ends after this pass. -/
theorem connection_handler_flood_ban_witness :
    (connection_handler_pass c12_env c12_config sample_binding c12_state).s.keep_alive = false ∧
    connection_handler_loop c12_env c12_config sample_binding 1 c12_state
      = some (connection_handler_pass c12_env c12_config sample_binding c12_state) ∧
    (connection_handler_pass c12_env c12_config sample_binding c12_state).tr.countP is_ban = 1 := by
  have h := connection_handler_flood_ban c12_env c12_config sample_binding c12_state
    (by decide) (by decide) (by decide) (by decide)
  exact ⟨h.2.1, h.2.2 0, by decide⟩

/-! ## C13: shrinking the thread pool -/

theorem count_quit_eq (pool : List t_thread_pool) :
    count_quit pool = ((pool.countP (fun thread => thread.quit) : Nat) : Int) := by
  induction pool with
  | nil => rfl
  | cons thread rest ih =>
    unfold count_quit
    cases hq : thread.quit <;> simp [List.countP_cons, hq, ih]

theorem length_eq_quit_add_running (pool : List t_thread_pool) :
    pool.length = pool.countP (fun thread => thread.quit) + running pool := by
  induction pool with
  | nil => rfl
  | cons thread rest ih =>
    unfold running at *
    cases hq : thread.quit <;> simp [List.countP_cons, hq, ih] <;> omega

theorem mark_quit_first (pool : List t_thread_pool) (h : 0 < running pool) :
    ∃ (before : List t_thread_pool) (thread : t_thread_pool) (after : List t_thread_pool),
      pool = before ++ thread :: after ∧ (∀ t ∈ before, t.quit = true) ∧ thread.quit = false ∧
      mark_quit pool = before ++ { thread with quit := true } :: after := by
  induction pool with
  | nil => simp [running] at h
  | cons thread rest ih =>
    cases hq : thread.quit
    · exact ⟨[], thread, rest, rfl, by simp, hq, by simp [mark_quit, hq]⟩
    · have hr : 0 < running rest := by
        simpa [running, List.countP_cons, hq] using h
      obtain ⟨before, t, after, h1, h2, h3, h4⟩ := ih hr
      refine ⟨thread :: before, t, after, by rw [h1]; rfl, ?_, h3, ?_⟩
      · intro x hx
        rcases List.mem_cons.mp hx with hx | hx
        · rw [hx]; exact hq
        · exact h2 x hx
      · simp [mark_quit, hq, h4]

theorem running_mark_quit (pool : List t_thread_pool) (h : 0 < running pool) :
    running (mark_quit pool) + 1 = running pool := by
  induction pool with
  | nil => simp [running] at h
  | cons thread rest ih =>
    cases hq : thread.quit
    · simp [mark_quit, hq, running, List.countP_cons]
    · have hr : 0 < running rest := by
        simpa [running, List.countP_cons, hq] using h
      have hi := ih hr
      have h1 : running (mark_quit (thread :: rest)) = running (mark_quit rest) := by
        simp [mark_quit, hq, running, List.countP_cons]
      have h2 : running (thread :: rest) = running rest := by
        simp [running, List.countP_cons, hq]
      rw [h1, h2]
      exact hi

/-- C13: `manage_thread_pool` on a pool whose `thread_pool_size` is the
length of the list, with `initial_thread_pool_size >= 0`. The first loop
counts the records marked `quit`. If the size minus that count is greater
than the initial size, exactly one record is marked: the first in list order
that was not marked, and nothing else changes; otherwise nothing changes. So
the number of workers not marked `quit` does not drop below the initial size
through this operation. -/
theorem manage_thread_pool_marks_one (w : t_workers)
    (hsize : w.thread_pool_size = (w.thread_pool.length : Int))
    (hinit : 0 ≤ w.initial_thread_pool_size) :
    count_quit w.thread_pool = ((w.thread_pool.countP (fun thread => thread.quit) : Nat) : Int) ∧
    (w.thread_pool_size - count_quit w.thread_pool > w.initial_thread_pool_size →
      ∃ (before : List t_thread_pool) (thread : t_thread_pool) (after : List t_thread_pool),
        w.thread_pool = before ++ thread :: after ∧ (∀ t ∈ before, t.quit = true) ∧
        thread.quit = false ∧
        manage_thread_pool w
          = { w with thread_pool := before ++ { thread with quit := true } :: after }) ∧
    (¬ (w.thread_pool_size - count_quit w.thread_pool > w.initial_thread_pool_size) →
      manage_thread_pool w = w) ∧
    ((running w.thread_pool : Int) ≥ w.initial_thread_pool_size →
      (running (manage_thread_pool w).thread_pool : Int) ≥ w.initial_thread_pool_size) := by
  have hlen := length_eq_quit_add_running w.thread_pool
  have hcount := count_quit_eq w.thread_pool
  have hdiff : w.thread_pool_size - count_quit w.thread_pool = (running w.thread_pool : Int) := by
    rw [hsize, hcount, hlen]
    push_cast
    omega
  refine ⟨hcount, ?_, ?_, ?_⟩
  · intro hgt
    have hpos : 0 < running w.thread_pool := by
      rw [hdiff] at hgt
      omega
    obtain ⟨before, thread, after, h1, h2, h3, h4⟩ := mark_quit_first w.thread_pool hpos
    refine ⟨before, thread, after, h1, h2, h3, ?_⟩
    unfold manage_thread_pool
    have hk : w.thread_pool_size - count_quit w.thread_pool - w.initial_thread_pool_size > 0 := by
      omega
    simp only [hk, if_true, h4]
  · intro hle
    unfold manage_thread_pool
    have hk : ¬ (w.thread_pool_size - count_quit w.thread_pool - w.initial_thread_pool_size > 0) := by
      omega
    simp only [hk, if_false]
  · intro hge
    unfold manage_thread_pool
    dsimp only
    split
    · rename_i hk
      have hgt : (running w.thread_pool : Int) > w.initial_thread_pool_size := by
        rw [← hdiff]
        omega
      have hpos : 0 < running w.thread_pool := by omega
      have hm := running_mark_quit w.thread_pool hpos
      show (running (mark_quit w.thread_pool) : Int) ≥ w.initial_thread_pool_size
      omega
    · exact hge

/-- C13, witness: of three workers, one already marked, with an initial size
of 1, the first unmarked worker (the second record) is marked. -/
theorem manage_thread_pool_marks_one_witness :
    (manage_thread_pool sample_workers).thread_pool
      = [{ worker := 3, session := none, quit := true },
         { worker := 2, session := none, quit := true },
         { worker := 1, session := none, quit := false }] ∧
    (running (manage_thread_pool sample_workers).thread_pool : Int)
      ≥ sample_workers.initial_thread_pool_size := by
  have h := manage_thread_pool_marks_one sample_workers (by decide) (by decide)
  exact ⟨by decide, h.2.2.2 (by decide)⟩

/-! ## C14: `start_worker` -/

theorem signals_append_success (calls : List t_pool_event) :
    signals (calls ++ [t_pool_event.pthread_cond_signal 0]) = signals calls + 1 := by
  simp [signals, List.count_append]

theorem add_thread_to_pool_session_list (w : t_workers) (os : t_os)
    (session : Option t_session_ref) :
    (add_thread_to_pool w os session).2.session_list = w.session_list := by
  unfold add_thread_to_pool
  repeat' split
  all_goals rfl

theorem start_worker_queued (w : t_workers) (os : t_os) (session : t_session_ref)
    (hw : w.waiting_workers > 0) (h : (start_worker w os session).1 = 0) :
    start_worker w os session
      = (0, { w with session_list := session :: w.session_list,
                     calls := w.calls ++ [t_pool_event.pthread_cond_signal 0],
                     waiting_workers := w.waiting_workers - 1 }) := by
  have hw2 : ¬ (w.waiting_workers ≤ 0) := by omega
  by_cases hm : os.malloc_ok = false
  · simp [start_worker, hw2, hm] at h
  · by_cases hs : os.pthread_cond_signal = 0
    · simp [start_worker, hw2, hm, hs]
    · simp [start_worker, hw2, hm, hs] at h

/-- C14: `start_worker` returns -1 or 0. It returns -1 exactly when, with no
worker waiting, the thread record cannot be allocated or a pthread call of
`add_thread_to_pool` fails, or, with a worker waiting, the queue node cannot
be allocated or `pthread_cond_signal` fails. Whenever it returns -1,
`session_list`, `waiting_workers`, `thread_pool` and `thread_pool_size` have
their values from before the call, so a session that was referenced by
neither the queue nor a pool record is still referenced by neither. When it
returns 0 with `waiting_workers > 0` on entry, the session is the new head of
`session_list`, exactly one successful signal was added and `waiting_workers`
is one less. The queue changes only by gaining the session at its head
together with a successful signal. -/
theorem start_worker_atomic (w : t_workers) (os : t_os) (session : t_session_ref) :
    ((start_worker w os session).1 = -1 ∨ (start_worker w os session).1 = 0) ∧
    ((start_worker w os session).1 = -1 ↔
      (w.waiting_workers ≤ 0 ∧
        (os.malloc_ok = false ∨ os.pthread_attr_init ≠ 0 ∨ os.pthread_attr_setdetachstate ≠ 0 ∨
          os.pthread_attr_setstacksize ≠ 0 ∨ os.pthread_create ≠ 0)) ∨
      (w.waiting_workers > 0 ∧ (os.malloc_ok = false ∨ os.pthread_cond_signal ≠ 0))) ∧
    ((start_worker w os session).1 = -1 →
      (start_worker w os session).2.session_list = w.session_list ∧
      (start_worker w os session).2.waiting_workers = w.waiting_workers ∧
      (start_worker w os session).2.thread_pool = w.thread_pool ∧
      (start_worker w os session).2.thread_pool_size = w.thread_pool_size ∧
      (session ∉ w.session_list → (∀ t ∈ w.thread_pool, t.session ≠ some session) →
        session ∉ (start_worker w os session).2.session_list ∧
        ∀ t ∈ (start_worker w os session).2.thread_pool, t.session ≠ some session)) ∧
    ((start_worker w os session).1 = 0 → w.waiting_workers > 0 →
      (start_worker w os session).2.session_list = session :: w.session_list ∧
      signals (start_worker w os session).2.calls = signals w.calls + 1 ∧
      (start_worker w os session).2.waiting_workers = w.waiting_workers - 1) ∧
    ((start_worker w os session).2.session_list = w.session_list ∨
      ((start_worker w os session).2.session_list = session :: w.session_list ∧
        (start_worker w os session).2.calls
          = w.calls ++ [t_pool_event.pthread_cond_signal 0])) := by
  have hfail : (start_worker w os session).1 = -1 →
      (start_worker w os session).2.session_list = w.session_list ∧
      (start_worker w os session).2.waiting_workers = w.waiting_workers ∧
      (start_worker w os session).2.thread_pool = w.thread_pool ∧
      (start_worker w os session).2.thread_pool_size = w.thread_pool_size := by
    unfold start_worker add_thread_to_pool
    dsimp only
    repeat' split
    all_goals simp_all
  have hret : (start_worker w os session).1 = -1 ∨ (start_worker w os session).1 = 0 := by
    unfold start_worker add_thread_to_pool
    dsimp only
    repeat' split
    all_goals simp_all
  refine ⟨hret, ?_, ?_, ?_, ?_⟩
  · unfold start_worker add_thread_to_pool
    dsimp only
    by_cases hw : w.waiting_workers ≤ 0
    · have hw2 : ¬ (w.waiting_workers > 0) := by omega
      simp only [hw, if_true, hw2, false_and, or_false, true_and]
      repeat' split
      all_goals simp_all
    · have hw2 : w.waiting_workers > 0 := by omega
      simp only [hw, if_false, hw2, false_and, false_or, true_and]
      repeat' split
      all_goals simp_all
  · intro h
    obtain ⟨h1, h2, h3, h4⟩ := hfail h
    refine ⟨h1, h2, h3, h4, ?_⟩
    intro hq hp
    rw [h1, h3]
    exact ⟨hq, hp⟩
  · intro h hw
    rw [start_worker_queued w os session hw h]
    exact ⟨rfl, signals_append_success w.calls, rfl⟩
  · by_cases hw : w.waiting_workers ≤ 0
    · left
      have hs : (start_worker w os session).2 = (add_thread_to_pool w os (some session)).2 := by
        unfold start_worker
        rw [if_pos hw]
        split <;> rfl
      rw [hs]
      exact add_thread_to_pool_session_list w os (some session)
    · have hw2 : w.waiting_workers > 0 := by omega
      rcases hret with h | h
      · exact Or.inl (hfail h).1
      · right
        rw [start_worker_queued w os session hw2 h]
        exact ⟨rfl, rfl⟩

/-- C14, witness: with a worker waiting and nothing failing, the session is
queued at the head, one signal is issued and one worker less is waiting. -/
theorem start_worker_atomic_witness :
    (start_worker sample_workers sample_os 12).1 = 0 ∧
    (start_worker sample_workers sample_os 12).2.session_list = [12, 11, 10] ∧
    signals (start_worker sample_workers sample_os 12).2.calls = 1 ∧
    (start_worker sample_workers sample_os 12).2.waiting_workers = 0 := by
  obtain ⟨_, _, _, h, _⟩ := start_worker_atomic sample_workers sample_os 12
  have hq := h (by decide) (by decide)
  exact ⟨by decide, hq.1, hq.2.1, hq.2.2⟩

/-! ## C17: the queue of pending sessions -/

theorem last_session_walk_concat (rest : List t_session_ref) (session last : t_session_ref) :
    last_session_walk (rest ++ [last]) session = (session :: rest, last) := by
  induction rest generalizing session with
  | nil => rfl
  | cons next rest ih =>
    show last_session_walk (next :: (rest ++ [last])) session = _
    rw [last_session_walk, ih]

theorem last_session_concat (list : List t_session_ref) (session : t_session_ref) :
    last_session (list ++ [session]) = (some session, list) := by
  cases list with
  | nil => rfl
  | cons first rest =>
    show last_session (first :: (rest ++ [session])) = _
    rw [last_session, last_session_walk_concat]

theorem queue_run_order (ops : List t_queue_op) :
    ∀ list : List t_session_ref,
      (queue_run list ops).1.filterMap id ++ (queue_run list ops).2.reverse
        = list.reverse ++ enqueued ops := by
  induction ops with
  | nil =>
    intro list
    simp [queue_run, enqueued]
  | cons op ops ih =>
    intro list
    cases op with
    | enqueue session =>
      simp only [queue_run, enqueued, ih]
      simp
    | dequeue =>
      rcases List.eq_nil_or_concat list with h | ⟨front, last, h⟩
      · subst h
        simp only [queue_run, enqueued]
        have hl : last_session [] = (none, []) := rfl
        rw [hl]
        simpa using ih []
      · rw [List.concat_eq_append] at h
        subst h
        simp only [queue_run, enqueued]
        rw [last_session_concat]
        have hi := ih front
        simp only [List.filterMap_cons, id, List.reverse_append, List.reverse_singleton,
          List.singleton_append, List.cons_append]
        rw [hi]
        simp

/-- C17: the queue of pending sessions is first-in first-out. `last_session`
on the empty list returns NULL and leaves the list empty; on a list that ends
in a node with session `s` it returns `s` and leaves the nodes before it, in
order. With `start_worker` inserting at the head, for every sequence of
insertions and `last_session` calls, the sessions returned, in the order of
the calls, followed by the sessions still queued, oldest first, are the
sessions that were queued at the start, oldest first, followed by the
inserted sessions in order of insertion; from an empty queue the sessions
returned are therefore an initial part of the inserted ones, in order. -/
theorem session_queue_fifo :
    last_session [] = (none, []) ∧
    (∀ (list : List t_session_ref) (s : t_session_ref),
      last_session (list ++ [s]) = (some s, list)) ∧
    (∀ (w : t_workers) (os : t_os) (s : t_session_ref),
      (start_worker w os s).1 = 0 → w.waiting_workers > 0 →
      (start_worker w os s).2.session_list = s :: w.session_list) ∧
    (∀ (list : List t_session_ref) (ops : List t_queue_op),
      (queue_run list ops).1.filterMap id ++ (queue_run list ops).2.reverse
        = list.reverse ++ enqueued ops) ∧
    (∀ ops : List t_queue_op, (queue_run [] ops).1.filterMap id <+: enqueued ops) := by
  refine ⟨rfl, last_session_concat, ?_, fun list ops => queue_run_order ops list, ?_⟩
  · intro w os s h hw
    rw [start_worker_queued w os s hw h]
  · intro ops
    have h := queue_run_order ops []
    exact ⟨(queue_run [] ops).2.reverse, by simpa using h⟩

end Hiawatha
